import Mathlib

/-!
# privacy_screen: a verification development

A shallow embedding of `src/gl_assert.{hpp,cpp}`, `src/key_listener.{hpp,cpp}` and
`src/main.cpp`.

* Machine integers are `Nat` / `Int`; no arithmetic in the embedded code can overflow
  (the only arithmetic is `i % textures.size()` on `size_t`).
* The process state touched by the code is one explicit record, `World`.
* OpenGL, GLFW, stdio and stb_image are external collaborators.  Their answers are
  supplied by a `Driver`, an arbitrary deterministic oracle that may inspect the whole
  `World` (hence the full call history); theorems quantify over every `Driver`.
* A failed `assert` and an uncaught C++ exception both end the process: `Res.crash`.
-/

namespace PrivacyScreen

/-! ## Scalar types and platform constants -/

abbrev GLenum := Nat
abbrev GLuint := Nat
abbrev GLint := Int

/-- The value `glGetError` returns when no error flag is recorded (`GL/glew.h`). -/
def GL_NO_ERROR : GLenum := 0

/-- The value of a successful status query (`GL/glew.h`). -/
def GL_TRUE : GLint := 1

/-- Type alias `util::event_code` (`unsigned long long`), `key_listener.hpp`. -/
abbrev event_code := Nat

/-- Type alias `util::key_code` (`unsigned long`), `key_listener.hpp`. -/
abbrev key_code := Nat

/-- Window message identifier of a key press (`winuser.h`). -/
def WM_KEYDOWN : event_code := 0x0100

/-- Virtual key code of the F8 key (`winuser.h`). -/
def VK_F8 : key_code := 0x77

/-! ## The process state -/

/-- Textual form and line of a wrapped call: the `#func` and `__LINE__` arguments that
`GL_ASSERT` hands to `gl_clear_errors` (`__FILE__` is fixed by the build and left out). -/
structure Site where
  func : String
  line : Nat
deriving DecidableEq, Repr

/-- One line written to a standard stream. -/
inductive LogLine where
  /-- The line `[error] gl error at func@file:line (text)` of `gl_clear_errors`. -/
  | glError (site : Site) (error : GLenum)
  /-- Any other line: a format string and its string argument. -/
  | text (msg : String) (arg : String)
deriving DecidableEq, Repr

/-- Handle of a native window (`GLFWwindow*`). -/
abbrev Window := Nat

/-- Window creation hints set through `glfwWindowHint` (`GLFW/glfw3.h`). -/
inductive Hint where
  | GLFW_CONTEXT_VERSION_MAJOR
  | GLFW_CONTEXT_VERSION_MINOR
  | GLFW_RED_BITS
  | GLFW_GREEN_BITS
  | GLFW_BLUE_BITS
  | GLFW_REFRESH_RATE
  | GLFW_OPENGL_PROFILE
  | GLFW_DECORATED
  | GLFW_RESIZABLE
  | GLFW_VISIBLE
  | GLFW_FOCUSED
deriving DecidableEq, Repr

/-- Library calls recorded in the call history. -/
inductive Call where
  | glCreateShader (type : GLenum) (id : GLuint)
  | glShaderSource (id : GLuint) (source : String)
  | glCompileShader (id : GLuint)
  /-- A shader parameter query together with the value it answered. -/
  | glGetShaderiv (id : GLuint) (pname : String) (answer : GLint)
  | glGetShaderInfoLog (id : GLuint)
  | glDeleteShader (id : GLuint)
  | glCreateProgram (id : GLuint)
  | glAttachShader (program shader : GLuint)
  | glLinkProgram (id : GLuint)
  | glValidateProgram (id : GLuint)
  /-- A program parameter query together with the value it answered. -/
  | glGetProgramiv (id : GLuint) (pname : String) (answer : GLint)
  | glGetProgramInfoLog (id : GLuint)
  | glDeleteProgram (id : GLuint)
  /-- A uniform lookup together with the location it answered. -/
  | glGetUniformLocation (program : GLuint) (name : String) (answer : GLint)
  | glGenTextures (id : GLuint)
  | glBindTexture (target : String) (id : GLuint)
  | glTexParameteri (target pname param : String)
  | glTexImage2D (width height : Int)
  | glGenVertexArrays (id : GLuint)
  | glBindVertexArray (id : GLuint)
  | glBindBuffer (target : String) (id : GLuint)
  | glVertexAttribPointer (index count stride : Nat)
  | glEnableVertexAttribArray (index : Nat)
  | glBindFramebuffer (target : String) (id : GLuint)
  | glViewport (x y width height : Int)
  | glClearColor (r g b a : Int)
  | glClear (mask : String)
  | glDisable (cap : String)
  | glEnable (cap : String)
  | glBlendFunc (sfactor dfactor : String)
  | glUseProgram (id : GLuint)
  | glActiveTexture (slot : Nat)
  | glUniform1i (location : GLuint) (value : Int)
  /-- The draw call; `window` is the context that was current when it was issued. -/
  | glDrawElements (window : Option Window) (count : Nat)
  /-- A window request: size, the window to share with, the hint values in force, and
  the handle answered (`none` for a null pointer). -/
  | glfwCreateWindow (width height : Int) (share : Option Window)
      (hints : List (Hint × Int)) (answer : Option Window)
  | glfwSetWindowPos (window : Window) (x y : Int)
  | glfwMakeContextCurrent (window : Window)
  | glfwShowWindow (window : Window)
  | glfwHideWindow (window : Window)
  | glfwSwapBuffers (window : Window)
deriving DecidableEq, Repr

/-- The part of the process and of the graphics/windowing libraries the code acts on. -/
structure World where
  /-- Pending OpenGL error codes; `glGetError` returns and removes the first. -/
  errors : List GLenum
  /-- Lines written to `stderr`, oldest first. -/
  stderr : List LogLine
  /-- Lines written to `stdout`, oldest first. -/
  stdout : List LogLine
  /-- Shader objects currently allocated. -/
  shaders : List GLuint
  /-- Program objects currently allocated. -/
  programs : List GLuint
  /-- Every recorded library call, oldest first. -/
  trace : List Call
  /-- The window whose context is current. -/
  current : Option Window
  /-- Whether a window is shown on screen. -/
  visible : Window → Bool
  /-- The close flag of a window, read by `glfwWindowShouldClose`. -/
  closeFlag : Window → Bool
  /-- Hint values in force for the next window request, latest first. -/
  hints : List (Hint × Int)

/-- A pending-error queue is well formed when it holds error codes only:
`GL_NO_ERROR` is the "no error" answer of `glGetError`, never a recorded error. -/
def WellFormed (errors : List GLenum) : Prop := ∀ e ∈ errors, e ≠ GL_NO_ERROR

instance (errors : List GLenum) : Decidable (WellFormed errors) := by
  unfold WellFormed; infer_instance

/-- How a process ends abnormally. -/
inductive Crash where
  /-- The `assert` of `GL_ASSERT` failed at this site. -/
  | assertFailed (site : Site)
  /-- `std::optional::value()` on an empty optional threw `std::bad_optional_access`,
  which nothing catches. -/
  | badOptionalAccess
  /-- An index outside a `std::vector` (or `% 0`): undefined behaviour. -/
  | undefinedBehaviour
deriving DecidableEq, Repr

deriving instance DecidableEq for Except

/-- Result of running a piece of the program. -/
inductive Res (α : Type) where
  | ok (a : α) (w : World)
  | crash (c : Crash) (w : World)

/-- A computation over the process state that may end the process. -/
def GLM (α : Type) : Type := World → Res α

def GLM.pure {α : Type} (a : α) : GLM α := fun w => Res.ok a w

def GLM.bind {α β : Type} (x : GLM α) (f : α → GLM β) : GLM β := fun w =>
  match x w with
  | Res.ok a w1 => f a w1
  | Res.crash c w1 => Res.crash c w1

instance : Monad GLM where
  pure := GLM.pure
  bind := GLM.bind

/-- A step that cannot end the process. -/
def GLM.lift {α : Type} (f : World → α × World) : GLM α := fun w =>
  Res.ok (f w).1 (f w).2

/-- The state a result ends in. -/
def Res.world {α : Type} : Res α → World
  | Res.ok _ w => w
  | Res.crash _ w => w

/-- The value of a result that returned. -/
def Res.value? {α : Type} : Res α → Option α
  | Res.ok a _ => some a
  | Res.crash _ _ => none

/-- The crash of a result that did not return. -/
def Res.crash? {α : Type} : Res α → Option Crash
  | Res.ok _ _ => none
  | Res.crash c _ => some c

/-! ## gl_assert.cpp / gl_assert.hpp -/

/-- External `glGetError`: returns and removes the oldest pending error code, or returns
`GL_NO_ERROR` when none is pending. -/
def glGetError (w : World) : GLenum × World :=
  match w.errors with
  | [] => (GL_NO_ERROR, w)
  | e :: rest => (e, { w with errors := rest })

/-- The `while` loop of `gl_clear_errors`, on the pending queue, the `has_error` local and
the `stderr` contents.  Every iteration consumes one queue entry, so the recursion is
structural in the queue. -/
def gl_clear_errors_loop (site : Site) :
    List GLenum → Bool → List LogLine → Bool × List GLenum × List LogLine
  | [], has_error, log => (has_error, [], log)
  | error :: rest, has_error, log =>
    if error = GL_NO_ERROR then (has_error, rest, log)
    else gl_clear_errors_loop site rest true (log ++ [LogLine.glError site error])

/-- Source: `bool gl_clear_errors(const char *func, const char *file, int line)`. -/
def gl_clear_errors (site : Site) (w : World) : Bool × World :=
  let r := gl_clear_errors_loop site w.errors false w.stderr
  (r.1, { w with errors := r.2.1, stderr := r.2.2 })

/-- Source: the macro `GL_ASSERT(func)` used as a statement:
`gl_clear_errors(..); func; assert(!gl_clear_errors(..))`. -/
def GL_ASSERT {α : Type} (site : Site) (func : World → α × World) : GLM α := fun w =>
  let w1 := (gl_clear_errors site w).2
  let r := func w1
  let after := gl_clear_errors site r.2
  if after.1 then Res.crash (Crash.assertFailed site) after.2 else Res.ok r.1 after.2

/-- Source: the macro `GL_ASSERT(func)` written to the right of `lhs =`.  The expansion
is `lhs = gl_clear_errors(..); func; assert(!gl_clear_errors(..))`, so the value assigned
is the `bool` of the first drain converted to an integer and the value of `func` is
dropped. -/
def GL_ASSERT_assigned {α : Type} (site : Site) (func : World → α × World) : GLM Nat :=
  fun w =>
  let first := gl_clear_errors site w
  let lhs : Nat := if first.1 then 1 else 0
  let r := func first.2
  let after := gl_clear_errors site r.2
  if after.1 then Res.crash (Crash.assertFailed site) after.2 else Res.ok lhs after.2

/-! ## key_listener.cpp -/

/-- Type alias `util::keyboard_callback`: a `std::function<void(event_code)>`, acting on
the state `σ` it captured. -/
abbrev keyboard_callback (σ : Type) := event_code → σ → σ

/-- The global `g_callbacks`: `unordered_map<key_code, vector<keyboard_callback>>`. -/
abbrev Callbacks (σ : Type) := key_code → Option (List (keyboard_callback σ))

/-- Initial value of `g_callbacks`: the empty map. -/
def g_callbacks_init (σ : Type) : Callbacks σ := fun _ => none

/-- Source: `attach_global_keyboard_listener`: `g_callbacks[key].push_back(callback)`;
`operator[]` first inserts an empty vector for a missing key. -/
def attach_global_keyboard_listener {σ : Type} (key : key_code)
    (callback : keyboard_callback σ) (g_callbacks : Callbacks σ) : Callbacks σ :=
  let entry := match g_callbacks key with
    | some v => v
    | none => []
  fun k => if k = key then some (entry ++ [callback]) else g_callbacks k

/-- Source: `global_keyboard_handler(code, wParam, lParam)`, with `vkCode` the field
`((KBDLLHOOKSTRUCT*)lParam)->vkCode`.  Both exits return `CallNextHookEx(..)`, which does
not act on `σ`; the result here is the state the callbacks leave. -/
def global_keyboard_handler {σ : Type} (g_callbacks : Callbacks σ) (code : Int)
    (wParam : event_code) (vkCode : key_code) (s : σ) : σ :=
  if code < 0 then s
  else
    match g_callbacks vkCode with
    | some callbacks => callbacks.foldl (fun s callback => callback wParam s) s
    | none => s

/-- A sequence of `attach_global_keyboard_listener(key, callback)` calls, in order. -/
def attach_all {σ : Type} (regs : List (key_code × keyboard_callback σ))
    (g_callbacks : Callbacks σ) : Callbacks σ :=
  regs.foldl (fun g r => attach_global_keyboard_listener r.1 r.2 g) g_callbacks

/-! ## main.cpp: the toggle callback -/

/-- Source: the lambda registered in `main` on `VK_F8`, acting on the captured
`show_windows`. -/
def main_toggle_callback : keyboard_callback Bool := fun event show_windows =>
  if event = WM_KEYDOWN then !show_windows else show_windows

/-- Source: the registration made in `main`:
`util::attach_global_keyboard_listener(VK_F8, [&show_windows](util::event_code event) ...)`
on the empty registry. -/
def main_hotkey_bind : Callbacks Bool :=
  attach_global_keyboard_listener VK_F8 main_toggle_callback (g_callbacks_init Bool)

/-- A keyboard event as the platform hands it to the hook: hook code, event kind
(`wParam`) and virtual key (`vkCode`). -/
structure HookEvent where
  code : Int
  wParam : event_code
  vkCode : key_code
deriving DecidableEq, Repr

/-- Whether a hook event reaches the F8 callback as a key-down. -/
def HookEvent.isToggle (e : HookEvent) : Bool :=
  decide (0 ≤ e.code) && decide (e.vkCode = VK_F8) && decide (e.wParam = WM_KEYDOWN)

/-- Run `global_keyboard_handler` on a sequence of hook events, in order. -/
def deliver_hook {σ : Type} (g_callbacks : Callbacks σ) (events : List HookEvent) (s : σ) : σ :=
  events.foldl (fun s e => global_keyboard_handler g_callbacks e.code e.wParam e.vkCode s) s

/-- Deliver a sequence of events to one callback, in order. -/
def deliver {σ : Type} (callback : keyboard_callback σ) (events : List event_code)
    (s : σ) : σ :=
  events.foldl (fun s e => callback e s) s

/-- A sample callback that appends its tag and the event kind to a log. -/
def logging_callback (tag : Nat) : keyboard_callback (List (Nat × event_code)) :=
  fun event log => log ++ [(tag, event)]

/-! ## External collaborators -/

/-- An open `FILE*`. -/
abbrev File := Nat

/-- What `stbi_load_from_file` writes through its out-parameters for a decoded image (the
pixel bytes stay abstract). -/
structure Image where
  width : Int
  height : Int
  bits_per_pixel : Int
deriving DecidableEq, Repr

/-- Answers of the external libraries.  Each may depend on the whole state at the time of
the call. -/
structure Driver where
  /-- Error codes a recorded OpenGL call adds to the pending queue. -/
  raises : World → Call → List GLenum
  glCreateShader : World → GLenum → GLuint
  glGetShaderiv : World → GLuint → String → GLint
  glGetShaderInfoLog : World → GLuint → String
  glCreateProgram : World → GLuint
  glGetProgramiv : World → GLuint → String → GLint
  glGetProgramInfoLog : World → GLuint → String
  glGetUniformLocation : World → GLuint → String → GLint
  glGenTextures : World → GLuint
  glGenVertexArrays : World → GLuint
  fopen : World → String → Option File
  stbi_load_from_file : World → File → Option Image
  glfwGetFramebufferSize : World → Window → Int × Int
  glfwCreateWindow : World → Option Window
  glewInit : World → Nat

/-- Record a library call and the error codes it raises. -/
def Driver.call (d : Driver) (c : Call) (w : World) : World :=
  { w with trace := w.trace ++ [c], errors := w.errors ++ d.raises w c }

/-- A recorded call without a result, as the argument of `GL_ASSERT`. -/
def Driver.exec (d : Driver) (c : Call) (w : World) : Unit × World :=
  ((), d.call c w)

/-- External `glCreateShader`: a new shader object becomes allocated. -/
def glCreateShader (d : Driver) (type : GLenum) (w : World) : GLuint × World :=
  let id := d.glCreateShader w type
  (id, { d.call (Call.glCreateShader type id) w with shaders := id :: w.shaders })

/-- External `glDeleteShader`: the shader object is released. -/
def glDeleteShader (d : Driver) (id : GLuint) (w : World) : Unit × World :=
  ((), { d.call (Call.glDeleteShader id) w with shaders := w.shaders.erase id })

/-- External `glGetShaderiv(id, pname, &out)`. -/
def glGetShaderiv (d : Driver) (id : GLuint) (pname : String) (w : World) : GLint × World :=
  let answer := d.glGetShaderiv w id pname
  (answer, d.call (Call.glGetShaderiv id pname answer) w)

/-- External `glGetShaderInfoLog`. -/
def glGetShaderInfoLog (d : Driver) (id : GLuint) (w : World) : String × World :=
  (d.glGetShaderInfoLog w id, d.call (Call.glGetShaderInfoLog id) w)

/-- External `glCreateProgram`: a new program object becomes allocated. -/
def glCreateProgram (d : Driver) (w : World) : GLuint × World :=
  let id := d.glCreateProgram w
  (id, { d.call (Call.glCreateProgram id) w with programs := id :: w.programs })

/-- External `glDeleteProgram`: the program object is released. -/
def glDeleteProgram (d : Driver) (id : GLuint) (w : World) : Unit × World :=
  ((), { d.call (Call.glDeleteProgram id) w with programs := w.programs.erase id })

/-- External `glGetProgramiv(id, pname, &out)`. -/
def glGetProgramiv (d : Driver) (id : GLuint) (pname : String) (w : World) : GLint × World :=
  let answer := d.glGetProgramiv w id pname
  (answer, d.call (Call.glGetProgramiv id pname answer) w)

/-- External `glGetProgramInfoLog`. -/
def glGetProgramInfoLog (d : Driver) (id : GLuint) (w : World) : String × World :=
  (d.glGetProgramInfoLog w id, d.call (Call.glGetProgramInfoLog id) w)

/-- External `glGetUniformLocation(program, name)`. -/
def glGetUniformLocation (d : Driver) (program : GLuint) (name : String) (w : World) :
    GLint × World :=
  let answer := d.glGetUniformLocation w program name
  (answer, d.call (Call.glGetUniformLocation program name answer) w)

/-- External `glGenTextures(1, &id)`. -/
def glGenTextures (d : Driver) (w : World) : GLuint × World :=
  let id := d.glGenTextures w
  (id, d.call (Call.glGenTextures id) w)

/-- External `glGenVertexArrays(1, &id)`. -/
def glGenVertexArrays (d : Driver) (w : World) : GLuint × World :=
  let id := d.glGenVertexArrays w
  (id, d.call (Call.glGenVertexArrays id) w)

/-- External `glDrawElements(GL_TRIANGLES, count, GL_UNSIGNED_INT, 0)`: draws into the
window whose context is current. -/
def glDrawElements (d : Driver) (count : Nat) (w : World) : Unit × World :=
  ((), d.call (Call.glDrawElements w.current count) w)

/-- External `glfwMakeContextCurrent`. -/
def glfwMakeContextCurrent (window : Window) : GLM Unit := fun w =>
  Res.ok () { w with trace := w.trace ++ [Call.glfwMakeContextCurrent window],
                     current := some window }

/-- External `glfwWindowShouldClose`: reads the close flag. -/
def glfwWindowShouldClose (window : Window) : GLM Bool := fun w =>
  Res.ok (w.closeFlag window) w

/-- External `glfwShowWindow`. -/
def glfwShowWindow (window : Window) : GLM Unit := fun w =>
  Res.ok () { w with trace := w.trace ++ [Call.glfwShowWindow window],
                     visible := fun x => if x = window then true else w.visible x }

/-- External `glfwHideWindow`. -/
def glfwHideWindow (window : Window) : GLM Unit := fun w =>
  Res.ok () { w with trace := w.trace ++ [Call.glfwHideWindow window],
                     visible := fun x => if x = window then false else w.visible x }

/-- External `glfwSwapBuffers`. -/
def glfwSwapBuffers (window : Window) : GLM Unit := fun w =>
  Res.ok () { w with trace := w.trace ++ [Call.glfwSwapBuffers window] }

/-- External `glfwGetFramebufferSize(window, &width, &height)`. -/
def glfwGetFramebufferSize (d : Driver) (window : Window) : GLM (Int × Int) := fun w =>
  Res.ok (d.glfwGetFramebufferSize w window) w

/-- External `glfwWindowHint(hint, value)`. -/
def glfwWindowHint (hint : Hint) (value : Int) : GLM Unit := fun w =>
  Res.ok () { w with hints := (hint, value) :: w.hints }

/-- The value in force for a hint: the latest one set. -/
def hintValue (hints : List (Hint × Int)) (hint : Hint) : Option Int :=
  (hints.find? (fun p => p.1 = hint)).map Prod.snd

/-- Constant `GLFW_TRUE` (`GLFW/glfw3.h`). -/
def GLFW_TRUE : Int := 1

/-- Constant `GLFW_FALSE` (`GLFW/glfw3.h`). -/
def GLFW_FALSE : Int := 0

/-- Constant `GLFW_OPENGL_CORE_PROFILE` (`GLFW/glfw3.h`). -/
def GLFW_OPENGL_CORE_PROFILE : Int := 0x00032001

/-- Constant `GLEW_OK` (`GL/glew.h`). -/
def GLEW_OK : Nat := 0

/-- External `glfwCreateWindow(width, height, title, nullptr, share)`: the request is
made under the hints in force; a window that is created starts shown exactly when the
`GLFW_VISIBLE` hint is not `GLFW_FALSE`. -/
def glfwCreateWindow (d : Driver) (width height : Int) (share : Option Window) :
    GLM (Option Window) := fun w =>
  let answer := d.glfwCreateWindow w
  let w1 := { w with trace := w.trace ++
    [Call.glfwCreateWindow width height share w.hints answer] }
  match answer with
  | none => Res.ok none w1
  | some window =>
    let shown := decide (hintValue w.hints Hint.GLFW_VISIBLE ≠ some GLFW_FALSE)
    Res.ok (some window)
      { w1 with visible := fun x => if x = window then shown else w.visible x }

/-- External `glfwSetWindowPos`. -/
def glfwSetWindowPos (window : Window) (x y : Int) : GLM Unit := fun w =>
  Res.ok () { w with trace := w.trace ++ [Call.glfwSetWindowPos window x y] }

/-- Source: `fprintf(stderr, msg, arg)`. -/
def eprint (msg arg : String) : GLM Unit := fun w =>
  Res.ok () { w with stderr := w.stderr ++ [LogLine.text msg arg] }

/-- Source: `printf(msg, arg)`. -/
def print (msg arg : String) : GLM Unit := fun w =>
  Res.ok () { w with stdout := w.stdout ++ [LogLine.text msg arg] }

/-- Source: `std::optional::value()`: throws `std::bad_optional_access` when empty; no
caller catches it, so the process terminates. -/
def optional_value {α : Type} (o : Option α) : GLM α := fun w =>
  match o with
  | some a => Res.ok a w
  | none => Res.crash Crash.badOptionalAccess w

/-! ## main.cpp: shaders and programs -/

structure Shader where
  id : GLuint
deriving DecidableEq, Repr

structure Program where
  id : GLuint
deriving DecidableEq, Repr

/-- Constant `GL_FRAGMENT_SHADER` (`GL/glew.h`). -/
def GL_FRAGMENT_SHADER : GLenum := 0x8B30

/-- Constant `GL_VERTEX_SHADER` (`GL/glew.h`). -/
def GL_VERTEX_SHADER : GLenum := 0x8B31

/-- Constant `GL_COMPUTE_SHADER` (`GL/glew.h`). -/
def GL_COMPUTE_SHADER : GLenum := 0x91B9

/-- Source: the `switch (type)` of `compile_shader` choosing the label. -/
def shader_type_label (type : GLenum) : String :=
  if type = GL_FRAGMENT_SHADER then "fragment"
  else if type = GL_VERTEX_SHADER then "vertex"
  else if type = GL_COMPUTE_SHADER then "compute"
  else "unknown"

/-- Source: `std::optional<Shader> compile_shader(GLenum type, const char* source)`. -/
def compile_shader (d : Driver) (type : GLenum) (source : String) : GLM (Option Shader) :=
  GL_ASSERT ⟨"GLuint id = glCreateShader(type)", 35⟩ (glCreateShader d type) >>= fun id =>
  GL_ASSERT ⟨"glShaderSource(id, 1, &source, nullptr)", 36⟩
    (d.exec (Call.glShaderSource id source)) >>= fun _ =>
  GL_ASSERT ⟨"glCompileShader(id)", 37⟩ (d.exec (Call.glCompileShader id)) >>= fun _ =>
  GL_ASSERT ⟨"glGetShaderiv(id, GL_COMPILE_STATUS, &result)", 39⟩
    (glGetShaderiv d id "GL_COMPILE_STATUS") >>= fun result =>
  if result = GL_TRUE then
    pure (some { id := id })
  else
    GLM.lift (glGetShaderiv d id "GL_INFO_LOG_LENGTH") >>= fun length =>
    (if length > 0 then
      GLM.lift (glGetShaderInfoLog d id) >>= fun message =>
      eprint "[error] failed to compile %s shader" (shader_type_label type) >>= fun _ =>
      eprint "%s" message
    else pure ()) >>= fun _ =>
    GL_ASSERT ⟨"glDeleteShader(id)", 59⟩ (glDeleteShader d id) >>= fun _ =>
    pure none

/-- Source: `std::optional<Program> create_program(vertex_shader_src, fragment_shader_src)`. -/
def create_program (d : Driver) (vertex_shader_src fragment_shader_src : String) :
    GLM (Option Program) :=
  compile_shader d GL_VERTEX_SHADER vertex_shader_src >>= fun vertex_shader_opt =>
  match vertex_shader_opt with
  | none => pure none
  | some vertex_shader =>
    compile_shader d GL_FRAGMENT_SHADER fragment_shader_src >>= fun fragment_shader_opt =>
    match fragment_shader_opt with
    | none => pure none
    | some fragment_shader =>
      GL_ASSERT ⟨"GLuint id = glCreateProgram()", 74⟩ (glCreateProgram d) >>= fun id =>
      GL_ASSERT ⟨"glAttachShader(id, vertex_shader.id)", 75⟩
        (d.exec (Call.glAttachShader id vertex_shader.id)) >>= fun _ =>
      GL_ASSERT ⟨"glAttachShader(id, fragment_shader.id)", 76⟩
        (d.exec (Call.glAttachShader id fragment_shader.id)) >>= fun _ =>
      GL_ASSERT ⟨"glLinkProgram(id)", 77⟩ (d.exec (Call.glLinkProgram id)) >>= fun _ =>
      GL_ASSERT ⟨"glValidateProgram(id)", 78⟩ (d.exec (Call.glValidateProgram id)) >>= fun _ =>
      GL_ASSERT ⟨"glGetProgramiv(id, GL_VALIDATE_STATUS, &status)", 80⟩
        (glGetProgramiv d id "GL_VALIDATE_STATUS") >>= fun status =>
      if status = GL_TRUE then
        pure (some { id := id })
      else
        GLM.lift (glGetProgramiv d id "GL_INFO_LOG_LENGTH") >>= fun length =>
        (if length > 0 then
          GLM.lift (glGetProgramInfoLog d id) >>= fun message =>
          eprint "[error] failed to compile gl program" "" >>= fun _ =>
          eprint "%s" message
        else pure ()) >>= fun _ =>
        GL_ASSERT ⟨"glDeleteProgram(id)", 94⟩ (glDeleteProgram d id) >>= fun _ =>
        pure none

structure ImageShader where
  program : Program
  u_texture : GLuint
deriving DecidableEq, Repr

/-- Source: `VERTEX_SHADER_SRC` of `create_image_shader`. -/
def VERTEX_SHADER_SRC : String :=
  " \n" ++
  "        #version 330 core\n" ++
  "        layout(location = 0) in vec2 pos;\n" ++
  "        out vec2 texture_pos;\n" ++
  "        void main() \x7b\n" ++
  "            gl_Position = vec4(pos.x, pos.y, 0.0, 1.0);\n" ++
  "            texture_pos = pos/2.0 + 0.5;\n" ++
  "            texture_pos.y = 1.0-texture_pos.y;\n" ++
  "        \x7d\n" ++
  "    "

/-- Source: `FRAGMENT_SHADER_SRC` of `create_image_shader`. -/
def FRAGMENT_SHADER_SRC : String :=
  "\n" ++
  "        #version 330 core\n" ++
  "        layout(location = 0) out vec4 colour;\n" ++
  "        uniform sampler2D u_texture;\n" ++
  "        in vec2 texture_pos;\n" ++
  "        void main() \x7b\n" ++
  "            vec2 pos = vec2(gl_FragCoord.x, gl_FragCoord.y);\n" ++
  "            colour = texture(u_texture, texture_pos);\n" ++
  "        \x7d\n" ++
  "    "

/-- Source: `std::optional<ImageShader> create_image_shader()`.  The last statement is
`shader.u_texture = GL_ASSERT(glGetUniformLocation(shader.program.id, "u_texture"));`. -/
def create_image_shader (d : Driver) : GLM (Option ImageShader) :=
  create_program d VERTEX_SHADER_SRC FRAGMENT_SHADER_SRC >>= fun program_opt =>
  match program_opt with
  | none => pure none
  | some program =>
    GL_ASSERT_assigned ⟨"glGetUniformLocation(shader.program.id, \"u_texture\")", 130⟩
      (glGetUniformLocation d program.id "u_texture") >>= fun u_texture =>
    pure (some { program := program, u_texture := u_texture })

/-! ## main.cpp: textures -/

structure Texture where
  id : GLuint
  width : Int
  height : Int
  bits_per_pixel : Int
deriving DecidableEq, Repr

/-- Source: `std::optional<Texture> load_texture_from_filepath(const char* filepath)`. -/
def load_texture_from_filepath (d : Driver) (filepath : String) : GLM (Option Texture) :=
  fun w =>
  match d.fopen w filepath with
  | none =>
    (eprint "[error] failed to load image from: %s" filepath >>= fun _ => pure none) w
  | some fp =>
    match d.stbi_load_from_file w fp with
    | none => Res.ok none w
    | some data =>
      (GL_ASSERT ⟨"glGenTextures(1, &id)", 158⟩ (glGenTextures d) >>= fun id =>
       GL_ASSERT ⟨"glBindTexture(GL_TEXTURE_2D, id)", 159⟩
         (d.exec (Call.glBindTexture "GL_TEXTURE_2D" id)) >>= fun _ =>
       GL_ASSERT ⟨"glTexParameteri(GL_TEXTURE_2D, GL_TEXTURE_MIN_FILTER, GL_LINEAR)", 160⟩
         (d.exec (Call.glTexParameteri "GL_TEXTURE_2D" "GL_TEXTURE_MIN_FILTER" "GL_LINEAR"))
         >>= fun _ =>
       GL_ASSERT ⟨"glTexParameteri(GL_TEXTURE_2D, GL_TEXTURE_MAG_FILTER, GL_LINEAR)", 161⟩
         (d.exec (Call.glTexParameteri "GL_TEXTURE_2D" "GL_TEXTURE_MAG_FILTER" "GL_LINEAR"))
         >>= fun _ =>
       GL_ASSERT ⟨"glTexParameteri(GL_TEXTURE_2D, GL_TEXTURE_WRAP_S, GL_CLAMP_TO_EDGE)", 162⟩
         (d.exec (Call.glTexParameteri "GL_TEXTURE_2D" "GL_TEXTURE_WRAP_S" "GL_CLAMP_TO_EDGE"))
         >>= fun _ =>
       GL_ASSERT ⟨"glTexParameteri(GL_TEXTURE_2D, GL_TEXTURE_WRAP_T, GL_CLAMP_TO_EDGE)", 163⟩
         (d.exec (Call.glTexParameteri "GL_TEXTURE_2D" "GL_TEXTURE_WRAP_T" "GL_CLAMP_TO_EDGE"))
         >>= fun _ =>
       GL_ASSERT ⟨"glTexImage2D(GL_TEXTURE_2D, 0, GL_RGBA8, width, height, 0, GL_RGBA, GL_UNSIGNED_BYTE, data)", 164⟩
         (d.exec (Call.glTexImage2D data.width data.height)) >>= fun _ =>
       pure (some { id := id, width := data.width, height := data.height,
                    bits_per_pixel := data.bits_per_pixel })) w

/-- Source: the `for (const char* filepath: filepaths)` loop of `main`, for the remaining
paths and the `textures` vector built so far. -/
def main_load_textures_loop (d : Driver) : List String → List Texture → GLM (List Texture)
  | [], textures => pure textures
  | filepath :: rest, textures =>
    load_texture_from_filepath d filepath >>= fun image_opt =>
    (if image_opt.isNone then eprint "[warn] failed to load image: %s" filepath
     else pure ()) >>= fun _ =>
    optional_value image_opt >>= fun image =>
    main_load_textures_loop d rest (textures ++ [image])

/-- Source: `filepaths` of `main`. -/
def main_filepaths : List String := ["./images/monitor_0.png"]

/-- Source: lines 283-298 of `main`, for a list of configured paths: `Except.ok textures`
when `main` goes on, `Except.error 1` when it executes `return 1`. -/
def main_load_textures (d : Driver) (filepaths : List String) :
    GLM (Except Nat (List Texture)) :=
  main_load_textures_loop d filepaths [] >>= fun textures =>
  if textures.length > 0 then
    print "[info] loaded %zu images" (toString textures.length) >>= fun _ =>
    pure (Except.ok textures)
  else
    eprint "[error] no images were able to be loaded" "" >>= fun _ =>
    pure (Except.error 1)

/-! ## main.cpp: the square mesh -/

structure SquareMesh where
  index_buffer : GLuint
  vertex_buffer : GLuint
deriving DecidableEq, Repr

/-- Source: `sizeof(Vertex)`, two `float`s. -/
def sizeof_Vertex : Nat := 8

/-- Source: `void SquareMesh::bind()`. -/
def SquareMesh.bind (d : Driver) (mesh : SquareMesh) : GLM Unit :=
  GL_ASSERT ⟨"glGenVertexArrays(1, &vertex_array)", 180⟩ (glGenVertexArrays d)
    >>= fun vertex_array =>
  GL_ASSERT ⟨"glBindVertexArray(vertex_array)", 181⟩
    (d.exec (Call.glBindVertexArray vertex_array)) >>= fun _ =>
  GL_ASSERT ⟨"glBindBuffer(GL_ARRAY_BUFFER, vertex_buffer)", 182⟩
    (d.exec (Call.glBindBuffer "GL_ARRAY_BUFFER" mesh.vertex_buffer)) >>= fun _ =>
  GL_ASSERT ⟨"glVertexAttribPointer(index, count, GL_FLOAT, is_normalised, stride, (const void*)(offset))", 189⟩
    (d.exec (Call.glVertexAttribPointer 0 2 sizeof_Vertex)) >>= fun _ =>
  GL_ASSERT ⟨"glEnableVertexAttribArray(index)", 190⟩
    (d.exec (Call.glEnableVertexAttribArray 0)) >>= fun _ =>
  GL_ASSERT ⟨"glBindBuffer(GL_ELEMENT_ARRAY_BUFFER, index_buffer)", 192⟩
    (d.exec (Call.glBindBuffer "GL_ELEMENT_ARRAY_BUFFER" mesh.index_buffer))

/-! ## main.cpp: window creation -/

/-- The fields of `GLFWvidmode` the code reads. -/
structure VidMode where
  width : Int
  height : Int
  redBits : Int
  greenBits : Int
  blueBits : Int
  refreshRate : Int
deriving DecidableEq, Repr

/-- A connected monitor: what `glfwGetVideoMode` and `glfwGetMonitorPos` answer for it. -/
structure Monitor where
  mode : VidMode
  x : Int
  y : Int
deriving DecidableEq, Repr

/-- Source: the eleven `glfwWindowHint` calls of the window creation loop. -/
def main_window_hints (mode : VidMode) : GLM Unit :=
  glfwWindowHint Hint.GLFW_CONTEXT_VERSION_MAJOR 4 >>= fun _ =>
  glfwWindowHint Hint.GLFW_CONTEXT_VERSION_MINOR 4 >>= fun _ =>
  glfwWindowHint Hint.GLFW_RED_BITS mode.redBits >>= fun _ =>
  glfwWindowHint Hint.GLFW_GREEN_BITS mode.greenBits >>= fun _ =>
  glfwWindowHint Hint.GLFW_BLUE_BITS mode.blueBits >>= fun _ =>
  glfwWindowHint Hint.GLFW_REFRESH_RATE mode.refreshRate >>= fun _ =>
  glfwWindowHint Hint.GLFW_OPENGL_PROFILE GLFW_OPENGL_CORE_PROFILE >>= fun _ =>
  glfwWindowHint Hint.GLFW_DECORATED GLFW_FALSE >>= fun _ =>
  glfwWindowHint Hint.GLFW_RESIZABLE GLFW_FALSE >>= fun _ =>
  glfwWindowHint Hint.GLFW_VISIBLE GLFW_TRUE >>= fun _ =>
  glfwWindowHint Hint.GLFW_FOCUSED GLFW_FALSE

/-- Source: the `for (int i = 0; i < total_monitors; i++)` loop of `main`, for the
remaining monitors, the index `i`, the `windows` vector so far and `primary_window`:
`Except.ok windows` when `main` goes on, `Except.error 1` when it executes `return 1`. -/
def main_create_windows_loop (d : Driver) :
    List Monitor → Nat → List Window → Option Window → GLM (Except Nat (List Window))
  | [], _, windows, _ => pure (Except.ok windows)
  | monitor :: rest, i, windows, primary_window =>
    main_window_hints monitor.mode >>= fun _ =>
    glfwCreateWindow d monitor.mode.width monitor.mode.height primary_window
      >>= fun window_opt =>
    match window_opt with
    | none =>
      eprint "[error] failed to create glfw window on monitor %d" (toString i) >>= fun _ =>
      pure (Except.error 1)
    | some window =>
      let finish (primary_window : Option Window) : GLM (Except Nat (List Window)) :=
        glfwSetWindowPos window monitor.x monitor.y >>= fun _ =>
        glfwMakeContextCurrent window >>= fun _ =>
        main_create_windows_loop d rest (i + 1) (windows ++ [window]) primary_window
      if i = 0 then
        glfwMakeContextCurrent window >>= fun _ =>
        (fun w => Res.ok (d.glewInit w) w) >>= fun err_glew_init =>
        if err_glew_init ≠ GLEW_OK then
          eprint "[error] glew initialisation error: %s" (toString err_glew_init)
            >>= fun _ =>
          pure (Except.error 1)
        else finish (some window)
      else finish primary_window

/-- Source: lines 233-274 of `main`. -/
def main_create_windows (d : Driver) (monitors : List Monitor) :
    GLM (Except Nat (List Window)) :=
  main_create_windows_loop d monitors 0 [] none

/-! ## main.cpp: the render loop -/

/-- Source: `textures[i % textures.size()]` in the render loop.  With an empty vector
the expression has no defined value. -/
def selected_texture (textures : List Texture) (i : Nat) : GLM Texture := fun w =>
  match textures[i % textures.length]? with
  | some texture => Res.ok texture w
  | none => Res.crash Crash.undefinedBehaviour w

/-- Source: lines 325-346 of `main`, the part of the loop body that draws window `i`
once it has been shown. -/
def main_render_window_draw (d : Driver) (shader : ImageShader) (textures : List Texture)
    (square_mesh : SquareMesh) (i : Nat) (window : Window) : GLM Unit :=
  GL_ASSERT ⟨"glBindFramebuffer(GL_DRAW_FRAMEBUFFER, 0)", 325⟩
    (d.exec (Call.glBindFramebuffer "GL_DRAW_FRAMEBUFFER" 0)) >>= fun _ =>
  glfwGetFramebufferSize d window >>= fun size =>
  GL_ASSERT ⟨"glViewport(0, 0, width, height)", 330⟩
    (d.exec (Call.glViewport 0 0 size.1 size.2)) >>= fun _ =>
  GL_ASSERT ⟨"glClearColor(1.0f, 1.0f, 1.0f, 1.0f)", 332⟩
    (d.exec (Call.glClearColor 1 1 1 1)) >>= fun _ =>
  GL_ASSERT ⟨"glClear(GL_COLOR_BUFFER_BIT | GL_DEPTH_BUFFER_BIT)", 333⟩
    (d.exec (Call.glClear "GL_COLOR_BUFFER_BIT | GL_DEPTH_BUFFER_BIT")) >>= fun _ =>
  GL_ASSERT ⟨"glDisable(GL_CULL_FACE)", 334⟩
    (d.exec (Call.glDisable "GL_CULL_FACE")) >>= fun _ =>
  GL_ASSERT ⟨"glEnable(GL_BLEND)", 335⟩ (d.exec (Call.glEnable "GL_BLEND")) >>= fun _ =>
  GL_ASSERT ⟨"glEnable(GL_DEPTH_TEST)", 336⟩
    (d.exec (Call.glEnable "GL_DEPTH_TEST")) >>= fun _ =>
  GL_ASSERT ⟨"glBlendFunc(GL_SRC_ALPHA, GL_ONE_MINUS_DST_ALPHA)", 337⟩
    (d.exec (Call.glBlendFunc "GL_SRC_ALPHA" "GL_ONE_MINUS_DST_ALPHA")) >>= fun _ =>
  GL_ASSERT ⟨"glUseProgram(shader.program.id)", 338⟩
    (d.exec (Call.glUseProgram shader.program.id)) >>= fun _ =>
  square_mesh.bind d >>= fun _ =>
  GL_ASSERT ⟨"glActiveTexture(GL_TEXTURE0+texture_slot)", 341⟩
    (d.exec (Call.glActiveTexture 0)) >>= fun _ =>
  selected_texture textures i >>= fun texture =>
  GLM.lift (d.exec (Call.glBindTexture "GL_TEXTURE_2D" texture.id)) >>= fun _ =>
  GL_ASSERT ⟨"glUniform1i(shader.u_texture, texture_slot)", 344⟩
    (d.exec (Call.glUniform1i shader.u_texture 0)) >>= fun _ =>
  GL_ASSERT ⟨"glDrawElements(GL_TRIANGLES, 6, GL_UNSIGNED_INT, 0)", 345⟩
    (glDrawElements d 6) >>= fun _ =>
  glfwSwapBuffers window

/-- Source: the body of `for (size_t i = 0; i < windows.size(); i++)` in the render loop,
for window `i`; the result is the new value of `should_close`. -/
def main_render_window (d : Driver) (shader : ImageShader) (textures : List Texture)
    (square_mesh : SquareMesh) (should_show : Bool) (i : Nat) (window : Window)
    (should_close : Bool) : GLM Bool :=
  glfwMakeContextCurrent window >>= fun _ =>
  glfwWindowShouldClose window >>= fun closing =>
  if closing then pure true
  else
    if should_show then
      glfwShowWindow window >>= fun _ =>
      main_render_window_draw d shader textures square_mesh i window >>= fun _ =>
      pure should_close
    else
      glfwHideWindow window >>= fun _ =>
      pure should_close

/-- Source: the `for` loop over `windows` in the render loop, from index `i` on. -/
def main_render_windows (d : Driver) (shader : ImageShader) (textures : List Texture)
    (square_mesh : SquareMesh) (should_show : Bool) :
    List Window → Nat → Bool → GLM Bool
  | [], _, should_close => pure should_close
  | window :: rest, i, should_close =>
    main_render_window d shader textures square_mesh should_show i window should_close
      >>= fun should_close =>
    main_render_windows d shader textures square_mesh should_show rest (i + 1) should_close

/-- Source: one iteration of `while (true)` up to the test of `should_close` (lines
310-350), with `show_windows` the value read into `should_show`; the result is
`should_close`. -/
def main_render_iteration (d : Driver) (shader : ImageShader) (textures : List Texture)
    (square_mesh : SquareMesh) (windows : List Window) (show_windows : Bool) : GLM Bool :=
  let should_show := show_windows
  main_render_windows d shader textures square_mesh should_show windows 0 false

/-! ## Observations on the call history (used to state the properties) -/

/-- The initial state of a process: nothing pending, nothing allocated, nothing shown. -/
def World.init : World :=
  { errors := [], stderr := [], stdout := [], shaders := [], programs := [], trace := [],
    current := none, visible := fun _ => false, closeFlag := fun _ => false, hints := [] }

/-- The calls a render-loop iteration is observed through: showing and hiding a window,
binding a texture, drawing. -/
def observed : Call → Bool
  | Call.glfwShowWindow _ => true
  | Call.glfwHideWindow _ => true
  | Call.glBindTexture _ _ => true
  | Call.glDrawElements _ _ => true
  | _ => false

/-- Whether a call is a draw call issued in the context of `window`. -/
def isDrawFor (window : Window) : Call → Bool
  | Call.glDrawElements (some x) _ => decide (x = window)
  | _ => false

/-- Number of draw calls issued for `window` in a list of calls. -/
def drawCalls (calls : List Call) (window : Window) : Nat :=
  calls.countP (isDrawFor window)

/-- The calls recorded by a run that started in state `w`. -/
def issued {α : Type} (w : World) (r : Res α) : List Call :=
  r.world.trace.drop w.trace.length

/-- The observed calls a complete pass of the loop body makes for window `i`, given its
close flag: none for a window signaled to close, a hide when the snapshot is false, and
otherwise show, bind `textures[i % textures.size()]`, draw six indices. -/
def expected_window_calls (textures : List Texture) (should_show closing : Bool) (i : Nat)
    (window : Window) : List Call :=
  if closing then []
  else if should_show then
    Call.glfwShowWindow window ::
      (match textures[i % textures.length]? with
       | some texture =>
         [Call.glBindTexture "GL_TEXTURE_2D" texture.id, Call.glDrawElements (some window) 6]
       | none => [])
  else [Call.glfwHideWindow window]

/-- The observed calls of a complete pass over `windows`, the first having index `i`. -/
def expected_calls (textures : List Texture) (should_show : Bool)
    (closeFlag : Window → Bool) : List Window → Nat → List Call
  | [], _ => []
  | window :: rest, i =>
    expected_window_calls textures should_show (closeFlag window) i window
      ++ expected_calls textures should_show closeFlag rest (i + 1)

/-- Whether list `a` is an initial segment of list `b`. -/
def Starts (a b : List Call) : Prop := ∃ t, a ++ t = b

/-- A computation run with `cur` as current context keeps the current context, the shown
windows and the close flags, and appends calls whose observed part is an initial segment
of `l`, and is all of `l` when the computation returns. -/
def Emits {α : Type} (cur : Option Window) (x : GLM α) (l : List Call) : Prop :=
  ∀ w : World, w.current = cur →
    (x w).world.current = cur ∧ (x w).world.visible = w.visible ∧
    (x w).world.closeFlag = w.closeFlag ∧
    ∃ cs, (x w).world.trace = w.trace ++ cs ∧ Starts (cs.filter observed) l ∧
      ((x w).crash? = none → cs.filter observed = l)

/-! ## Partial correctness (used to state and prove the properties) -/

/-- Partial correctness: when `x` returns from state `w`, its value and end state satisfy
`Q`. -/
def Post {α : Type} (x : GLM α) (w : World) (Q : α → World → Prop) : Prop :=
  match x w with
  | Res.ok a w1 => Q a w1
  | Res.crash _ _ => True

/-- The parts of the state that draining the error queue and printing leave alone. -/
def SameObjects (w w1 : World) : Prop :=
  w1.trace = w.trace ∧ w1.shaders = w.shaders ∧ w1.programs = w.programs

/-- The calls `compile_shader` records after the status query. -/
def compile_shader_tail (id : GLuint) (status length : GLint) : List Call :=
  if status = GL_TRUE then []
  else [Call.glGetShaderiv id "GL_INFO_LOG_LENGTH" length]
    ++ (if length > 0 then [Call.glGetShaderInfoLog id] else [])
    ++ [Call.glDeleteShader id]

/-! ## Totality (used to state and prove the properties) -/

/-- A driver none of whose recorded calls raises an OpenGL error. -/
def Driver.Clean (d : Driver) : Prop := ∀ (w : World) (c : Call), d.raises w c = []

/-- A computation that, started with a well-formed pending queue, returns and leaves a
well-formed pending queue. -/
def Returns {α : Type} (x : GLM α) : Prop :=
  ∀ w : World, WellFormed w.errors → (x w).crash? = none ∧ WellFormed (x w).world.errors

/-- The calls the render loop issues outside `GL_ASSERT`: the texture bind of line 343. -/
def unwrappedInRender : Call → Bool
  | Call.glBindTexture _ _ => true
  | _ => false

/-- A driver on which no call that the render loop wraps in `GL_ASSERT` raises an OpenGL
error, and on which every code raised by any call is an error code (never
`GL_NO_ERROR`). -/
def Driver.CleanWrapped (d : Driver) : Prop :=
  (∀ (w : World) (c : Call), unwrappedInRender c = false → d.raises w c = []) ∧
  (∀ (w : World) (c : Call), WellFormed (d.raises w c))

/-- A computation that can end the process only at the `assert` of a `GL_ASSERT`. -/
def AssertOnly {α : Type} (x : GLM α) : Prop :=
  ∀ w : World, (x w).crash? = none ∨ ∃ site, (x w).crash? = some (Crash.assertFailed site)

/-! ## Window requests (used to state the properties) -/

/-- A window request made with the visible hint true and the decorated, resizable and
focused hints false; every other call satisfies this trivially. -/
def requestedShown : Call → Prop
  | Call.glfwCreateWindow _ _ _ hints _ =>
    hintValue hints Hint.GLFW_VISIBLE = some GLFW_TRUE ∧
    hintValue hints Hint.GLFW_DECORATED = some GLFW_FALSE ∧
    hintValue hints Hint.GLFW_RESIZABLE = some GLFW_FALSE ∧
    hintValue hints Hint.GLFW_FOCUSED = some GLFW_FALSE
  | _ => True

/-- Whether a call is a window request. -/
def isWindowRequest : Call → Bool
  | Call.glfwCreateWindow _ _ _ _ _ => true
  | _ => false

/-- The property of a run of the creation loop that started in `w` with `windows` and `n`
monitors to go: it does not crash, every window request it records was made with the
visible hint true, and when it returns the windows, there are `n` more and all are shown. -/
def CreatedShown (w : World) (windows : List Window) (n : Nat)
    (r : Res (Except Nat (List Window))) : Prop :=
  r.crash? = none ∧
  (∃ cs, r.world.trace = w.trace ++ cs ∧ ∀ c ∈ cs, requestedShown c) ∧
  ((∀ x ∈ windows, w.visible x = true) → ∀ ws, r.value? = some (Except.ok ws) →
    ws.length = windows.length + n ∧ ∀ x ∈ ws, r.world.visible x = true)

/-! ## Sample data -/

/-- A sample driver: no call raises an error; shader and program names are counted up;
the compile status, the uniform location and the files that exist are parameters; every
file that opens decodes to a 1920x1080 image; window handles are counted up from 1. -/
def sampleDriver (status : GLint) (location : GLint) (files : List String) : Driver where
  raises := fun _ _ => []
  glCreateShader := fun w _ => w.shaders.length + 1
  glGetShaderiv := fun _ _ pname => if pname = "GL_COMPILE_STATUS" then status else 0
  glGetShaderInfoLog := fun _ _ => ""
  glCreateProgram := fun w => w.programs.length + 1
  glGetProgramiv := fun _ _ pname => if pname = "GL_VALIDATE_STATUS" then 1 else 0
  glGetProgramInfoLog := fun _ _ => ""
  glGetUniformLocation := fun _ _ _ => location
  glGenTextures := fun w => w.trace.length + 1
  glGenVertexArrays := fun w => w.trace.length + 1
  fopen := fun _ path => if path ∈ files then some 3 else none
  stbi_load_from_file := fun _ _ => some { width := 1920, height := 1080, bits_per_pixel := 4 }
  glfwGetFramebufferSize := fun _ _ => (1920, 1080)
  glfwCreateWindow := fun w => some (w.trace.length + 1)
  glewInit := fun _ => 0

/-- A sample image shader: program 1, sampler location 0. -/
def sampleShader : ImageShader := { program := { id := 1 }, u_texture := 0 }

/-- A sample 1920x1080 texture with the given name. -/
def sampleTexture (id : GLuint) : Texture :=
  { id := id, width := 1920, height := 1080, bits_per_pixel := 4 }

/-- A sample mesh: index buffer 1, vertex buffer 2. -/
def sampleMesh : SquareMesh := { index_buffer := 1, vertex_buffer := 2 }

/-- A state in which every window is shown and signaled to close. -/
def closingWorld : World :=
  { World.init with visible := fun _ => true, closeFlag := fun _ => true }

/-- A sample 1920x1080 monitor at the given position. -/
def sampleMonitor (x y : Int) : Monitor :=
  { mode := { width := 1920, height := 1080, redBits := 8, greenBits := 8, blueBits := 8,
              refreshRate := 60 },
    x := x, y := y }

/-- A sample wrapped call that raises `GL_INVALID_VALUE`. -/
def raising_call (w : World) : Unit × World :=
  ((), { w with errors := w.errors ++ [0x0501] })

/-- A sample state with `GL_INVALID_OPERATION` pending. -/
def pendingWorld : World := { World.init with errors := [0x0502] }

/-- A sample driver on which the texture bind raises `GL_INVALID_OPERATION` and no other
call raises an error. -/
def bindRaisingDriver : Driver :=
  { sampleDriver 1 0 [] with
    raises := fun _ c => if unwrappedInRender c = true then [0x0502] else [] }

/-- A sample driver for which every file opens and none decodes. -/
def corruptFileDriver : Driver :=
  { sampleDriver 1 0 [] with
    fopen := fun _ _ => some 3
    stbi_load_from_file := fun _ _ => none }

/-! ## Basic facts about the monad -/

@[simp] theorem glm_pure_apply {α : Type} (a : α) (w : World) :
    (pure a : GLM α) w = Res.ok a w := rfl

@[simp] theorem glm_bind_apply {α β : Type} (x : GLM α) (f : α → GLM β) (w : World) :
    (x >>= f) w = match x w with
      | Res.ok a w1 => f a w1
      | Res.crash c w1 => Res.crash c w1 := rfl

/-! ## gl_assert: draining the error queue -/

/-- One iteration of the loop is one `glGetError` call: the loop ends when the call
answers `GL_NO_ERROR` and otherwise logs the code, sets `has_error` and goes on. -/
theorem gl_clear_errors_loop_step (site : Site) (w : World) (has_error : Bool) :
    gl_clear_errors_loop site w.errors has_error w.stderr
      = if (glGetError w).1 = GL_NO_ERROR then
          (has_error, (glGetError w).2.errors, w.stderr)
        else
          gl_clear_errors_loop site (glGetError w).2.errors true
            (w.stderr ++ [LogLine.glError site (glGetError w).1]) := by
  unfold glGetError
  cases h : w.errors with
  | nil => simp [gl_clear_errors_loop, h]
  | cons e rest => simp [gl_clear_errors_loop, h]

theorem gl_clear_errors_loop_wellFormed (site : Site) (q : List GLenum)
    (hq : WellFormed q) (has_error : Bool) (log : List LogLine) :
    gl_clear_errors_loop site q has_error log
      = (has_error || !q.isEmpty, [], log ++ q.map (LogLine.glError site)) := by
  induction q generalizing has_error log with
  | nil => simp [gl_clear_errors_loop]
  | cons e rest ih =>
    have he : e ≠ GL_NO_ERROR := hq e (by simp)
    have hrest : WellFormed rest := fun x hx => hq x (by simp [hx])
    simp [gl_clear_errors_loop, he, ih hrest]

theorem gl_clear_errors_wellFormed (site : Site) (w : World) (hw : WellFormed w.errors) :
    gl_clear_errors site w
      = (!w.errors.isEmpty,
         { w with errors := [], stderr := w.stderr ++ w.errors.map (LogLine.glError site) }) := by
  simp [gl_clear_errors, gl_clear_errors_loop_wellFormed site w.errors hw]

/-- C9. For a well-formed pending queue (error codes only) and any wrapped call that
leaves a well-formed queue: the first `gl_clear_errors` answers true exactly when an error
was pending, empties the queue and logs every drained code; `GL_ASSERT` then runs the call
on the drained state, crashes at its `assert` exactly when the call left an error pending,
returns the call's value exactly when it left none, and always ends with an empty queue,
having logged the codes the call left. Errors pending beforehand never reach the
`assert`. The macro written to the right of an assignment crashes in the same cases and
ends in the same state. -/
theorem GL_ASSERT_contract {α : Type} (site : Site) (func : World → α × World) (w : World)
    (hw : WellFormed w.errors)
    (hf : WellFormed (func (gl_clear_errors site w).2).2.errors) :
    ((gl_clear_errors site w).1 = true ↔ w.errors ≠ []) ∧
    (gl_clear_errors site w).2.errors = [] ∧
    (gl_clear_errors site w).2.stderr = w.stderr ++ w.errors.map (LogLine.glError site) ∧
    ((GL_ASSERT site func w).crash? = some (Crash.assertFailed site)
      ↔ (func (gl_clear_errors site w).2).2.errors ≠ []) ∧
    ((GL_ASSERT site func w).value? = some (func (gl_clear_errors site w).2).1
      ↔ (func (gl_clear_errors site w).2).2.errors = []) ∧
    (GL_ASSERT site func w).world.errors = [] ∧
    (GL_ASSERT site func w).world.stderr
      = (func (gl_clear_errors site w).2).2.stderr
        ++ (func (gl_clear_errors site w).2).2.errors.map (LogLine.glError site) ∧
    (GL_ASSERT_assigned site func w).crash? = (GL_ASSERT site func w).crash? ∧
    (GL_ASSERT_assigned site func w).world = (GL_ASSERT site func w).world := by
  have h1 := gl_clear_errors_wellFormed site w hw
  have h2 := gl_clear_errors_wellFormed site _ hf
  refine ⟨?_, ?_, ?_, ?_, ?_, ?_, ?_, ?_, ?_⟩
  · rw [h1]; cases w.errors <;> simp
  · rw [h1]
  · rw [h1]
  · unfold GL_ASSERT
    simp only [h2]
    cases (func (gl_clear_errors site w).2).2.errors <;> simp [Res.crash?]
  · unfold GL_ASSERT
    simp only [h2]
    cases (func (gl_clear_errors site w).2).2.errors <;> simp [Res.value?]
  · unfold GL_ASSERT
    simp only [h2]
    cases (func (gl_clear_errors site w).2).2.errors <;> simp [Res.world]
  · unfold GL_ASSERT
    simp only [h2]
    cases (func (gl_clear_errors site w).2).2.errors <;> simp [Res.world]
  · unfold GL_ASSERT GL_ASSERT_assigned
    simp only
    split <;> rfl
  · unfold GL_ASSERT GL_ASSERT_assigned
    simp only
    split <;> rfl

/-! ## Frame facts: what draining and recording leave alone -/

@[simp] theorem gl_clear_errors_trace (site : Site) (w : World) :
    (gl_clear_errors site w).2.trace = w.trace := rfl

@[simp] theorem gl_clear_errors_current (site : Site) (w : World) :
    (gl_clear_errors site w).2.current = w.current := rfl

@[simp] theorem gl_clear_errors_visible (site : Site) (w : World) :
    (gl_clear_errors site w).2.visible = w.visible := rfl

@[simp] theorem gl_clear_errors_closeFlag (site : Site) (w : World) :
    (gl_clear_errors site w).2.closeFlag = w.closeFlag := rfl

@[simp] theorem gl_clear_errors_shaders (site : Site) (w : World) :
    (gl_clear_errors site w).2.shaders = w.shaders := rfl

@[simp] theorem gl_clear_errors_programs (site : Site) (w : World) :
    (gl_clear_errors site w).2.programs = w.programs := rfl

@[simp] theorem gl_clear_errors_stdout (site : Site) (w : World) :
    (gl_clear_errors site w).2.stdout = w.stdout := rfl

@[simp] theorem gl_clear_errors_hints (site : Site) (w : World) :
    (gl_clear_errors site w).2.hints = w.hints := rfl

@[simp] theorem Driver.call_trace (d : Driver) (c : Call) (w : World) :
    (d.call c w).trace = w.trace ++ [c] := rfl

@[simp] theorem Driver.call_current (d : Driver) (c : Call) (w : World) :
    (d.call c w).current = w.current := rfl

@[simp] theorem Driver.call_visible (d : Driver) (c : Call) (w : World) :
    (d.call c w).visible = w.visible := rfl

@[simp] theorem Driver.call_closeFlag (d : Driver) (c : Call) (w : World) :
    (d.call c w).closeFlag = w.closeFlag := rfl

@[simp] theorem Driver.call_shaders (d : Driver) (c : Call) (w : World) :
    (d.call c w).shaders = w.shaders := rfl

@[simp] theorem Driver.call_programs (d : Driver) (c : Call) (w : World) :
    (d.call c w).programs = w.programs := rfl

/-- The two outcomes of `GL_ASSERT`: with `w1` the drained start state and `w3` the drained
state after the call, it returns the call's value in `w3` or crashes in `w3`. -/
theorem GL_ASSERT_cases {α : Type} (site : Site) (func : World → α × World) (w : World) :
    GL_ASSERT site func w
        = Res.ok (func (gl_clear_errors site w).2).1
            (gl_clear_errors site (func (gl_clear_errors site w).2).2).2 ∨
    GL_ASSERT site func w
        = Res.crash (Crash.assertFailed site)
            (gl_clear_errors site (func (gl_clear_errors site w).2).2).2 := by
  unfold GL_ASSERT
  by_cases h : (gl_clear_errors site (func (gl_clear_errors site w).2).2).1 = true
  · right; simp [h]
  · left; simp [h]

theorem GL_ASSERT_world {α : Type} (site : Site) (func : World → α × World) (w : World) :
    (GL_ASSERT site func w).world
      = (gl_clear_errors site (func (gl_clear_errors site w).2).2).2 := by
  rcases GL_ASSERT_cases site func w with h | h <;> rw [h] <;> rfl

/-! ## Initial segments and the `Emits` calculus -/

theorem starts_nil (l : List Call) : Starts [] l := ⟨l, rfl⟩

theorem starts_refl (l : List Call) : Starts l l := ⟨[], by simp⟩

theorem starts_append_right {a b : List Call} (h : Starts a b) (c : List Call) :
    Starts a (b ++ c) := by
  obtain ⟨t, ht⟩ := h
  exact ⟨t ++ c, by rw [← ht, List.append_assoc]⟩

theorem starts_append_left {a b : List Call} (l : List Call) (h : Starts a b) :
    Starts (l ++ a) (l ++ b) := by
  obtain ⟨t, ht⟩ := h
  exact ⟨t, by rw [← ht, List.append_assoc]⟩

theorem starts_countP_le {a b : List Call} (h : Starts a b) (p : Call → Bool) :
    a.countP p ≤ b.countP p := by
  obtain ⟨t, ht⟩ := h
  rw [← ht, List.countP_append]
  omega

theorem emits_pure {α : Type} (cur : Option Window) (a : α) :
    Emits cur (pure a : GLM α) [] := by
  intro w hw
  exact ⟨hw, rfl, rfl, [], (List.append_nil _).symm, starts_nil _, fun _ => rfl⟩

theorem emits_bind {α β : Type} {cur : Option Window} {x : GLM α} {f : α → GLM β}
    {l1 l2 : List Call} (hx : Emits cur x l1) (hf : ∀ a, Emits cur (f a) l2) :
    Emits cur (x >>= f) (l1 ++ l2) := by
  intro w hw
  obtain ⟨hc, hv, hcl, cs, htr, hst, hok⟩ := hx w hw
  rw [glm_bind_apply]
  cases hxw : x w with
  | ok a w1 =>
    rw [hxw] at hc hv hcl htr hok
    simp only [Res.world] at hc hv hcl htr
    obtain ⟨hc2, hv2, hcl2, cs2, htr2, hst2, hok2⟩ := hf a w1 hc
    have hl1 : cs.filter observed = l1 := hok rfl
    refine ⟨hc2, hv2.trans hv, hcl2.trans hcl, cs ++ cs2, ?_, ?_, ?_⟩
    · rw [htr2, htr, List.append_assoc]
    · rw [List.filter_append, hl1]
      exact starts_append_left l1 hst2
    · intro h
      rw [List.filter_append, hl1, hok2 h]
  | crash c w1 =>
    rw [hxw] at hc hv hcl htr
    simp only [Res.world] at hc hv hcl htr
    refine ⟨hc, hv, hcl, cs, htr, starts_append_right hst l2, ?_⟩
    intro h
    simp [Res.crash?] at h

theorem emits_bind_nil {α β : Type} {cur : Option Window} {x : GLM α} {f : α → GLM β}
    {l : List Call} (hx : Emits cur x []) (hf : ∀ a, Emits cur (f a) l) :
    Emits cur (x >>= f) l := by
  have h := emits_bind hx hf
  simpa using h

theorem emits_bind_one {α β : Type} {cur : Option Window} {x : GLM α} {f : α → GLM β}
    {c : Call} {l : List Call} (hx : Emits cur x [c]) (hf : ∀ a, Emits cur (f a) l) :
    Emits cur (x >>= f) (c :: l) := by
  have h := emits_bind hx hf
  simpa using h

/-- A `GL_ASSERT` around a call that keeps the frame and records calls observed as `l`. -/
theorem emits_GL_ASSERT {α : Type} {cur : Option Window} (site : Site)
    (func : World → α × World) (l : List Call)
    (h : ∀ w : World, w.current = cur →
      (func w).2.current = cur ∧ (func w).2.visible = w.visible ∧
      (func w).2.closeFlag = w.closeFlag ∧
      ∃ cs, (func w).2.trace = w.trace ++ cs ∧ cs.filter observed = l) :
    Emits cur (GL_ASSERT site func) l := by
  intro w hw
  obtain ⟨hc, hv, hcl, cs, htr, hl⟩ := h (gl_clear_errors site w).2 (by simpa using hw)
  rw [GL_ASSERT_world]
  refine ⟨by simpa using hc, by simpa using hv, by simpa using hcl, cs, by simpa using htr,
    ?_, fun _ => hl⟩
  rw [hl]
  exact starts_refl l

theorem emits_exec (d : Driver) (cur : Option Window) (site : Site) (c : Call)
    (hc : observed c = false) : Emits cur (GL_ASSERT site (d.exec c)) [] := by
  apply emits_GL_ASSERT
  intro w hw
  exact ⟨hw, rfl, rfl, [c], rfl, by simp [hc]⟩

theorem emits_glGenVertexArrays (d : Driver) (cur : Option Window) (site : Site) :
    Emits cur (GL_ASSERT site (glGenVertexArrays d)) [] := by
  apply emits_GL_ASSERT
  intro w hw
  exact ⟨hw, rfl, rfl, [Call.glGenVertexArrays (d.glGenVertexArrays w)], rfl,
    by simp [observed]⟩

theorem emits_glDrawElements (d : Driver) (cur : Option Window) (site : Site) (n : Nat) :
    Emits cur (GL_ASSERT site (glDrawElements d n)) [Call.glDrawElements cur n] := by
  apply emits_GL_ASSERT
  intro w hw
  refine ⟨hw, rfl, rfl, [Call.glDrawElements w.current n], rfl, ?_⟩
  simp [observed, hw]

theorem emits_glBindTexture (d : Driver) (cur : Option Window) (target : String)
    (id : GLuint) :
    Emits cur (GLM.lift (d.exec (Call.glBindTexture target id)))
      [Call.glBindTexture target id] := by
  intro w hw
  refine ⟨hw, rfl, rfl, [Call.glBindTexture target id], rfl, ?_, fun _ => ?_⟩
  · simp [observed]; exact starts_refl _
  · simp [observed]

theorem emits_glfwGetFramebufferSize (d : Driver) (cur : Option Window) (window : Window) :
    Emits cur (glfwGetFramebufferSize d window) [] := by
  intro w hw
  exact ⟨hw, rfl, rfl, [], (List.append_nil _).symm, starts_nil _, fun _ => rfl⟩

theorem emits_glfwSwapBuffers (cur : Option Window) (window : Window) :
    Emits cur (glfwSwapBuffers window) [] := by
  intro w hw
  exact ⟨hw, rfl, rfl, [Call.glfwSwapBuffers window], rfl, by simp [observed, starts_nil],
    fun _ => by simp [observed]⟩

theorem emits_bind_mesh (d : Driver) (cur : Option Window) (mesh : SquareMesh) :
    Emits cur (mesh.bind d) [] := by
  unfold SquareMesh.bind
  refine emits_bind_nil (emits_glGenVertexArrays d cur _) (fun _ => ?_)
  refine emits_bind_nil (emits_exec d cur _ _ rfl) (fun _ => ?_)
  refine emits_bind_nil (emits_exec d cur _ _ rfl) (fun _ => ?_)
  refine emits_bind_nil (emits_exec d cur _ _ rfl) (fun _ => ?_)
  refine emits_bind_nil (emits_exec d cur _ _ rfl) (fun _ => ?_)
  exact emits_exec d cur _ _ rfl

/-! ## The render loop: the drawing part -/

theorem emits_selected_texture (cur : Option Window) (textures : List Texture) (i : Nat)
    (f : Texture → GLM Unit) (l : Texture → List Call) (hf : ∀ t, Emits cur (f t) (l t)) :
    Emits cur (selected_texture textures i >>= f)
      (match textures[i % textures.length]? with
       | some texture => l texture
       | none => []) := by
  intro w hw
  rw [glm_bind_apply]
  unfold selected_texture
  cases textures[i % textures.length]? with
  | none =>
    exact ⟨hw, rfl, rfl, [], (List.append_nil _).symm, starts_nil _, fun h => by
      simp [Res.crash?] at h⟩
  | some t => exact hf t w hw

theorem emits_render_window_draw (d : Driver) (shader : ImageShader)
    (textures : List Texture) (mesh : SquareMesh) (i : Nat) (window : Window) :
    Emits (some window) (main_render_window_draw d shader textures mesh i window)
      (match textures[i % textures.length]? with
       | some texture =>
         [Call.glBindTexture "GL_TEXTURE_2D" texture.id, Call.glDrawElements (some window) 6]
       | none => []) := by
  unfold main_render_window_draw
  refine emits_bind_nil (emits_exec d _ _ _ rfl) (fun _ => ?_)
  refine emits_bind_nil (emits_glfwGetFramebufferSize d _ window) (fun _ => ?_)
  refine emits_bind_nil (emits_exec d _ _ _ rfl) (fun _ => ?_)
  refine emits_bind_nil (emits_exec d _ _ _ rfl) (fun _ => ?_)
  refine emits_bind_nil (emits_exec d _ _ _ rfl) (fun _ => ?_)
  refine emits_bind_nil (emits_exec d _ _ _ rfl) (fun _ => ?_)
  refine emits_bind_nil (emits_exec d _ _ _ rfl) (fun _ => ?_)
  refine emits_bind_nil (emits_exec d _ _ _ rfl) (fun _ => ?_)
  refine emits_bind_nil (emits_exec d _ _ _ rfl) (fun _ => ?_)
  refine emits_bind_nil (emits_exec d _ _ _ rfl) (fun _ => ?_)
  refine emits_bind_nil (emits_bind_mesh d _ mesh) (fun _ => ?_)
  refine emits_bind_nil (emits_exec d _ _ _ rfl) (fun _ => ?_)
  refine emits_selected_texture _ textures i _
    (fun t => [Call.glBindTexture "GL_TEXTURE_2D" t.id, Call.glDrawElements (some window) 6])
    (fun t => ?_)
  refine emits_bind_one (emits_glBindTexture d _ _ _) (fun _ => ?_)
  refine emits_bind_nil (emits_exec d _ _ _ rfl) (fun _ => ?_)
  refine emits_bind_one (emits_glDrawElements d _ _ _) (fun _ => ?_)
  exact emits_glfwSwapBuffers _ window


/-! ## The toggle callback -/

theorem deliver_cons {σ : Type} (callback : keyboard_callback σ) (e : event_code)
    (events : List event_code) (s : σ) :
    deliver callback (e :: events) s = deliver callback events (callback e s) := rfl

theorem main_hotkey_bind_handler (code : Int) (wParam : event_code) (vkCode : key_code)
    (s : Bool) :
    global_keyboard_handler main_hotkey_bind code wParam vkCode s
      = if 0 ≤ code ∧ vkCode = VK_F8 then main_toggle_callback wParam s else s := by
  unfold global_keyboard_handler main_hotkey_bind attach_global_keyboard_listener
    g_callbacks_init
  by_cases hc : code < 0
  · have : ¬ 0 ≤ code := by omega
    simp [hc, this]
  · have h0 : 0 ≤ code := by omega
    by_cases hk : vkCode = VK_F8
    · simp [hc, h0, hk]
    · simp [hc, h0, hk]

theorem xor_odd_succ (b : Bool) (n : Nat) :
    xor (!b) (decide (n % 2 = 1)) = xor b (decide ((n + 1) % 2 = 1)) := by
  rcases Nat.mod_two_eq_zero_or_one n with h0 | h0 <;>
    cases b <;> simp [Nat.succ_mod_two_eq_one_iff, h0]

/-- C1. Delivering any sequence of events to the F8 toggle callback of `main` leaves the
flag at `initial XOR (number of WM_KEYDOWN events is odd)`, and the result is the same as
delivering the WM_KEYDOWN events alone: events of any other kind change nothing. The same
holds through the hook: after any sequence of hook events handled with the registration
of `main`, the flag is `initial XOR (number of F8 key-down events with non-negative
hook code is odd)`. -/
theorem main_toggle_callback_parity (initial : Bool) (events : List event_code)
    (hookEvents : List HookEvent) :
    deliver main_toggle_callback events initial
      = xor initial (decide (events.count WM_KEYDOWN % 2 = 1)) ∧
    deliver main_toggle_callback events initial
      = deliver main_toggle_callback (events.filter (fun e => e = WM_KEYDOWN)) initial ∧
    deliver_hook main_hotkey_bind hookEvents initial
      = xor initial (decide (hookEvents.countP HookEvent.isToggle % 2 = 1)) := by
  refine ⟨?_, ?_, ?_⟩
  · induction events generalizing initial with
    | nil => simp [deliver]
    | cons e rest ih =>
      rw [deliver_cons, ih]
      by_cases he : e = WM_KEYDOWN
      · subst he
        simp only [main_toggle_callback, if_true, List.count_cons_self]
        exact xor_odd_succ initial _
      · simp only [main_toggle_callback, if_neg he, List.count_cons_of_ne (Ne.symm he)]
  · induction events generalizing initial with
    | nil => simp [deliver]
    | cons e rest ih =>
      rw [deliver_cons, ih]
      by_cases he : e = WM_KEYDOWN
      · subst he
        simp [deliver_cons, main_toggle_callback]
      · simp [he, main_toggle_callback]
  · induction hookEvents generalizing initial with
    | nil => simp [deliver_hook]
    | cons e rest ih =>
      have hstep : deliver_hook main_hotkey_bind (e :: rest) initial
          = deliver_hook main_hotkey_bind rest
              (global_keyboard_handler main_hotkey_bind e.code e.wParam e.vkCode initial) := rfl
      rw [hstep, ih, main_hotkey_bind_handler]
      by_cases ht : e.isToggle = true
      · have ht2 := ht
        simp only [HookEvent.isToggle, Bool.and_eq_true, decide_eq_true_eq] at ht2
        rw [if_pos ⟨ht2.1.1, ht2.1.2⟩, List.countP_cons_of_pos _ _ ht]
        simp only [main_toggle_callback, ht2.2, if_true]
        exact xor_odd_succ initial _
      · rw [List.countP_cons_of_neg _ _ ht]
        by_cases hk : 0 ≤ e.code ∧ e.vkCode = VK_F8
        · rw [if_pos hk]
          have hw : e.wParam ≠ WM_KEYDOWN := by
            intro hw
            apply ht
            simp [HookEvent.isToggle, hk.1, hk.2, hw]
          simp only [main_toggle_callback, if_neg hw]
        · rw [if_neg hk]

/-! ## The keyboard listener -/

theorem attach_all_apply {σ : Type} (regs : List (key_code × keyboard_callback σ))
    (g : Callbacks σ) (k : key_code) :
    attach_all regs g k
      = if (regs.filter (fun r => r.1 = k)).isEmpty then g k
        else some ((match g k with | some v => v | none => [])
              ++ (regs.filter (fun r => r.1 = k)).map Prod.snd) := by
  induction regs generalizing g with
  | nil => simp [attach_all]
  | cons r rest ih =>
    have hstep : attach_all (r :: rest) g
        = attach_all rest (attach_global_keyboard_listener r.1 r.2 g) := rfl
    rw [hstep, ih]
    by_cases hk : r.1 = k
    · subst hk
      simp [attach_global_keyboard_listener]
    · have hk2 : ¬ k = r.1 := fun h => hk h.symm
      have hfil : List.filter (fun r => decide (r.1 = k)) (r :: rest)
          = List.filter (fun r => decide (r.1 = k)) rest := by
        simp [List.filter_cons, hk]
      rw [hfil]
      simp [attach_global_keyboard_listener, hk2]

/-- C5. After any sequence of `attach_global_keyboard_listener(key, callback)` calls on
the empty registry, `global_keyboard_handler` with a non-negative hook code and virtual key
`vk` runs exactly the callbacks registered for `vk`, each once, on the event kind `wParam`,
in registration order; in particular it changes nothing when no registration is for `vk`. -/
theorem global_keyboard_handler_dispatch {σ : Type}
    (regs : List (key_code × keyboard_callback σ)) (code : Int) (hcode : 0 ≤ code)
    (wParam : event_code) (vk : key_code) (s : σ) :
    global_keyboard_handler (attach_all regs (g_callbacks_init σ)) code wParam vk s
      = ((regs.filter (fun r => r.1 = vk)).map Prod.snd).foldl
          (fun s callback => callback wParam s) s ∧
    ((∀ r ∈ regs, r.1 ≠ vk) →
      global_keyboard_handler (attach_all regs (g_callbacks_init σ)) code wParam vk s = s) := by
  have hneg : ¬ code < 0 := by omega
  have main : global_keyboard_handler (attach_all regs (g_callbacks_init σ)) code wParam vk s
      = ((regs.filter (fun r => r.1 = vk)).map Prod.snd).foldl
          (fun s callback => callback wParam s) s := by
    unfold global_keyboard_handler
    rw [if_neg hneg, attach_all_apply]
    by_cases hf : regs.filter (fun r => r.1 = vk) = []
    · simp [hf, g_callbacks_init]
    · simp [hf, g_callbacks_init]
  refine ⟨main, fun hnone => ?_⟩
  rw [main]
  have hf : regs.filter (fun r => r.1 = vk) = [] := by
    rw [List.filter_eq_nil_iff]
    intro r hr
    simpa using hnone r hr
  simp [hf]

/-! ## The render loop: observed calls -/

theorem main_render_window_closing (d : Driver) (shader : ImageShader)
    (textures : List Texture) (mesh : SquareMesh) (should_show : Bool) (i : Nat)
    (window : Window) (should_close : Bool) (w : World) (h : w.closeFlag window = true) :
    main_render_window d shader textures mesh should_show i window should_close w
      = Res.ok true { w with trace := w.trace ++ [Call.glfwMakeContextCurrent window],
                             current := some window } := by
  simp only [main_render_window, glm_bind_apply, glfwMakeContextCurrent,
    glfwWindowShouldClose, h, if_true, glm_pure_apply]

theorem main_render_window_hidden (d : Driver) (shader : ImageShader)
    (textures : List Texture) (mesh : SquareMesh) (i : Nat)
    (window : Window) (should_close : Bool) (w : World) (h : w.closeFlag window = false) :
    main_render_window d shader textures mesh false i window should_close w
      = Res.ok should_close
          { w with trace := w.trace ++ [Call.glfwMakeContextCurrent window]
                      ++ [Call.glfwHideWindow window],
                   current := some window,
                   visible := fun x => if x = window then false else w.visible x } := by
  simp only [main_render_window, glm_bind_apply, glfwMakeContextCurrent,
    glfwWindowShouldClose, h, if_true, glm_pure_apply, glfwHideWindow, Bool.false_eq_true, if_false]

theorem main_render_window_shown (d : Driver) (shader : ImageShader)
    (textures : List Texture) (mesh : SquareMesh) (i : Nat)
    (window : Window) (should_close : Bool) (w : World) (h : w.closeFlag window = false) :
    main_render_window d shader textures mesh true i window should_close w
      = (main_render_window_draw d shader textures mesh i window >>= fun _ =>
          (pure should_close : GLM Bool))
          { w with trace := w.trace ++ [Call.glfwMakeContextCurrent window]
                      ++ [Call.glfwShowWindow window],
                   current := some window,
                   visible := fun x => if x = window then true else w.visible x } := by
  simp only [main_render_window, glm_bind_apply, glfwMakeContextCurrent,
    glfwWindowShouldClose, h, if_true, glm_pure_apply, glfwShowWindow, Bool.false_eq_true, if_false]

/-- What one pass of the loop body does, for every driver and start state: the close
flags are kept and the observed calls are an initial segment of `expected_window_calls`,
all of it when the body returns. -/
theorem render_window_calls (d : Driver) (shader : ImageShader) (textures : List Texture)
    (mesh : SquareMesh) (should_show : Bool) (i : Nat) (window : Window)
    (should_close : Bool) (w : World) :
    (main_render_window d shader textures mesh should_show i window should_close w).world.closeFlag
      = w.closeFlag ∧
    ∃ cs,
      (main_render_window d shader textures mesh should_show i window should_close w).world.trace
        = w.trace ++ cs ∧
      Starts (cs.filter observed)
        (expected_window_calls textures should_show (w.closeFlag window) i window) ∧
      ((main_render_window d shader textures mesh should_show i window should_close w).crash?
          = none →
        cs.filter observed
          = expected_window_calls textures should_show (w.closeFlag window) i window) := by
  cases hcl : w.closeFlag window with
  | true =>
    rw [main_render_window_closing d shader textures mesh should_show i window should_close w hcl]
    refine ⟨rfl, [Call.glfwMakeContextCurrent window], rfl, ?_, fun _ => ?_⟩ <;>
      simp [expected_window_calls, observed, starts_nil]
  | false =>
    cases should_show with
    | false =>
      rw [main_render_window_hidden d shader textures mesh i window should_close w hcl]
      refine ⟨rfl, [Call.glfwMakeContextCurrent window, Call.glfwHideWindow window], ?_, ?_,
        fun _ => ?_⟩
      · simp [Res.world]
      · simp [expected_window_calls, observed, starts_refl]
      · simp [expected_window_calls, observed]
    | true =>
      rw [main_render_window_shown d shader textures mesh i window should_close w hcl]
      obtain ⟨_, _, hcf, cs, htr, hst, hok⟩ :=
        emits_bind (emits_render_window_draw d shader textures mesh i window)
          (fun _ => emits_pure (some window) should_close)
          { w with trace := w.trace ++ [Call.glfwMakeContextCurrent window]
                      ++ [Call.glfwShowWindow window],
                   current := some window,
                   visible := fun x => if x = window then true else w.visible x } rfl
      simp only [List.append_nil] at hst hok
      refine ⟨hcf, [Call.glfwMakeContextCurrent window, Call.glfwShowWindow window] ++ cs,
        ?_, ?_, fun h => ?_⟩
      · rw [htr]; simp
      · have h2 := starts_append_left [Call.glfwShowWindow window] hst
        simpa [expected_window_calls, observed, List.filter_cons] using h2
      · have := hok h
        simp [expected_window_calls, observed, List.filter_cons, this]

/-- What a pass over the windows from index `i` on does, for every driver and start
state. -/
theorem render_windows_calls (d : Driver) (shader : ImageShader) (textures : List Texture)
    (mesh : SquareMesh) (should_show : Bool) (windows : List Window) (i : Nat)
    (should_close : Bool) (w : World) :
    (main_render_windows d shader textures mesh should_show windows i should_close w).world.closeFlag
      = w.closeFlag ∧
    ∃ cs,
      (main_render_windows d shader textures mesh should_show windows i should_close w).world.trace
        = w.trace ++ cs ∧
      Starts (cs.filter observed)
        (expected_calls textures should_show w.closeFlag windows i) ∧
      ((main_render_windows d shader textures mesh should_show windows i should_close w).crash?
          = none →
        cs.filter observed = expected_calls textures should_show w.closeFlag windows i) := by
  induction windows generalizing i should_close w with
  | nil =>
    exact ⟨rfl, [], (List.append_nil _).symm, starts_nil _, fun _ => rfl⟩
  | cons window rest ih =>
    obtain ⟨hcf, cs, htr, hst, hok⟩ :=
      render_window_calls d shader textures mesh should_show i window should_close w
    unfold main_render_windows
    rw [glm_bind_apply]
    cases hr : main_render_window d shader textures mesh should_show i window should_close w with
    | ok b w1 =>
      rw [hr] at hcf htr hok
      simp only [Res.world] at hcf htr
      obtain ⟨hcf2, cs2, htr2, hst2, hok2⟩ := ih (i + 1) b w1
      have hl1 := hok rfl
      rw [hcf] at hst2 hok2
      refine ⟨hcf2.trans hcf, cs ++ cs2, ?_, ?_, fun h => ?_⟩
      · rw [htr2, htr, List.append_assoc]
      · rw [List.filter_append, hl1]
        exact starts_append_left _ hst2
      · rw [List.filter_append, hl1, hok2 h]
        rfl
    | crash c w1 =>
      rw [hr] at hcf htr
      simp only [Res.world] at hcf htr
      refine ⟨hcf, cs, htr, ?_, fun h => ?_⟩
      · exact starts_append_right hst _
      · simp [Res.crash?] at h

/-! ## Partial correctness calculus -/

theorem post_elim {α : Type} {x : GLM α} {w : World} {Q : α → World → Prop}
    (h : Post x w Q) {a : α} {w1 : World} (hx : x w = Res.ok a w1) : Q a w1 := by
  unfold Post at h
  rw [hx] at h
  exact h

theorem post_pure {α : Type} {a : α} {w : World} {Q : α → World → Prop} (h : Q a w) :
    Post (pure a : GLM α) w Q := h

theorem post_bind {α β : Type} {x : GLM α} {f : α → GLM β} {w : World}
    {Q : β → World → Prop} (h : Post x w (fun a w1 => Post (f a) w1 Q)) :
    Post (x >>= f) w Q := by
  unfold Post at h ⊢
  rw [glm_bind_apply]
  cases hx : x w with
  | ok a w1 => rw [hx] at h; exact h
  | crash c w1 => trivial

theorem post_GL_ASSERT {α : Type} {site : Site} {func : World → α × World} {w : World}
    {Q : α → World → Prop}
    (h : Q (func (gl_clear_errors site w).2).1
          (gl_clear_errors site (func (gl_clear_errors site w).2).2).2) :
    Post (GL_ASSERT site func) w Q := by
  unfold Post
  rcases GL_ASSERT_cases site func w with h1 | h1 <;> rw [h1]
  · exact h
  · trivial

theorem post_lift {α : Type} {func : World → α × World} {w : World}
    {Q : α → World → Prop} (h : Q (func w).1 (func w).2) : Post (GLM.lift func) w Q := h

theorem post_eprint {msg arg : String} {w : World} {Q : Unit → World → Prop}
    (h : Q () { w with stderr := w.stderr ++ [LogLine.text msg arg] }) :
    Post (eprint msg arg) w Q := h

theorem post_GL_ASSERT_bind {α β : Type} {site : Site} {func : World → α × World}
    {f : α → GLM β} {w : World} {Q : β → World → Prop}
    (h : ∀ w0, SameObjects w w0 → ∀ w3, SameObjects (func w0).2 w3 →
      Post (f (func w0).1) w3 Q) :
    Post (GL_ASSERT site func >>= f) w Q :=
  post_bind (post_GL_ASSERT (h (gl_clear_errors site w).2 ⟨rfl, rfl, rfl⟩
    (gl_clear_errors site (func (gl_clear_errors site w).2).2).2 ⟨rfl, rfl, rfl⟩))

theorem post_lift_bind {α β : Type} {func : World → α × World} {f : α → GLM β} {w : World}
    {Q : β → World → Prop} (h : Post (f (func w).1) (func w).2 Q) :
    Post (GLM.lift func >>= f) w Q :=
  post_bind (post_lift h)

theorem post_eprint_bind {β : Type} {msg arg : String} {f : Unit → GLM β} {w : World}
    {Q : β → World → Prop}
    (h : ∀ w1, SameObjects w w1 → Post (f ()) w1 Q) :
    Post (eprint msg arg >>= f) w Q :=
  post_bind (post_eprint (h _ ⟨rfl, rfl, rfl⟩))

theorem post_bind_of {α β : Type} {x : GLM α} {f : α → GLM β} {w : World}
    {P : α → World → Prop} {Q : β → World → Prop} (hx : Post x w P)
    (hf : ∀ a w1, P a w1 → Post (f a) w1 Q) : Post (x >>= f) w Q := by
  apply post_bind
  unfold Post at hx ⊢
  cases hxw : x w with
  | ok a w1 => rw [hxw] at hx; exact hf a w1 hx
  | crash c w1 => trivial

theorem compile_shader_post (d : Driver) (type : GLenum) (source : String) (w : World) :
    Post (compile_shader d type source) w (fun o w1 =>
      ∃ id status length,
        w1.trace = w.trace ++ [Call.glCreateShader type id, Call.glShaderSource id source,
          Call.glCompileShader id, Call.glGetShaderiv id "GL_COMPILE_STATUS" status]
          ++ compile_shader_tail id status length ∧
        w1.programs = w.programs ∧
        (status = GL_TRUE → o = some { id := id } ∧ w1.shaders = id :: w.shaders) ∧
        (status ≠ GL_TRUE → o = none ∧ w1.shaders = w.shaders)) := by
  unfold compile_shader
  apply post_GL_ASSERT_bind
  intro a0 ⟨ta0, sa0, pa0⟩ a1 ⟨ta1, sa1, pa1⟩
  apply post_GL_ASSERT_bind
  intro b0 ⟨tb0, sb0, pb0⟩ b1 ⟨tb1, sb1, pb1⟩
  apply post_GL_ASSERT_bind
  intro c0 ⟨tc0, sc0, pc0⟩ c1 ⟨tc1, sc1, pc1⟩
  apply post_GL_ASSERT_bind
  intro e0 ⟨te0, se0, pe0⟩ e1 ⟨te1, se1, pe1⟩
  have htrace : e1.trace = w.trace ++ [Call.glCreateShader type (glCreateShader d type a0).1,
      Call.glShaderSource (glCreateShader d type a0).1 source,
      Call.glCompileShader (glCreateShader d type a0).1,
      Call.glGetShaderiv (glCreateShader d type a0).1 "GL_COMPILE_STATUS"
        (glGetShaderiv d (glCreateShader d type a0).1 "GL_COMPILE_STATUS" e0).1] := by
    rw [te1]
    simp only [glGetShaderiv, Driver.call_trace, te0, tc1, Driver.exec, tc0, tb1, tb0, ta1,
      glCreateShader, ta0]
    simp
  have hshaders : e1.shaders = (glCreateShader d type a0).1 :: w.shaders := by
    rw [se1]
    simp only [glGetShaderiv, Driver.call_shaders, se0, sc1, Driver.exec, sc0, sb1, sb0, sa1,
      glCreateShader, sa0]
  have hprograms : e1.programs = w.programs := by
    rw [pe1]
    simp only [glGetShaderiv, Driver.call_programs, pe0, pc1, Driver.exec, pc0, pb1, pb0, pa1,
      glCreateShader, pa0]
  split
  · rename_i hs
    refine post_pure ⟨_, _, 0, ?_, hprograms, fun _ => ⟨rfl, hshaders⟩, fun h => absurd hs h⟩
    rw [htrace]
    simp [compile_shader_tail, hs]
  · rename_i hs
    apply post_lift_bind
    refine post_bind_of (P := fun _ g => g.trace = e1.trace
        ++ [Call.glGetShaderiv (glCreateShader d type a0).1 "GL_INFO_LOG_LENGTH"
              (glGetShaderiv d (glCreateShader d type a0).1 "GL_INFO_LOG_LENGTH" e1).1]
        ++ (if (glGetShaderiv d (glCreateShader d type a0).1 "GL_INFO_LOG_LENGTH" e1).1 > 0
            then [Call.glGetShaderInfoLog (glCreateShader d type a0).1] else [])
        ∧ g.shaders = e1.shaders ∧ g.programs = e1.programs) ?_ ?_
    · split
      · rename_i hl
        apply post_lift_bind
        apply post_eprint_bind
        intro g1 ⟨tg1, sg1, pg1⟩
        refine post_eprint ⟨?_, ?_, ?_⟩
        · show g1.trace = _
          rw [tg1]; simp [glGetShaderInfoLog, glGetShaderiv, hl]
        · show g1.shaders = _
          rw [sg1]; rfl
        · show g1.programs = _
          rw [pg1]; rfl
      · rename_i hl
        refine post_pure ⟨?_, rfl, rfl⟩
        simp [glGetShaderiv, hl]
    · intro _ g ⟨tg, sg, pg⟩
      apply post_GL_ASSERT_bind
      intro h0 ⟨th0, sh0, ph0⟩ h1 ⟨th1, sh1, ph1⟩
      refine post_pure ⟨(glCreateShader d type a0).1, _,
        (glGetShaderiv d (glCreateShader d type a0).1 "GL_INFO_LOG_LENGTH" e1).1, ?_, ?_,
        fun h => absurd h hs, fun _ => ⟨rfl, ?_⟩⟩
      · rw [th1]
        simp only [glDeleteShader, Driver.call_trace, th0, tg, htrace]
        simp [compile_shader_tail, hs]
      · rw [ph1]
        simp only [glDeleteShader, Driver.call_programs, ph0, pg, hprograms]
      · rw [sh1]
        simp only [glDeleteShader, sh0, sg, hshaders, List.erase_cons_head]

/-! ## Totality calculus and `compile_shader` -/

theorem wellFormed_nil : WellFormed [] := fun _ h => by simp at h

theorem returns_pure {α : Type} (a : α) : Returns (pure a : GLM α) :=
  fun _ hw => ⟨rfl, hw⟩

theorem returns_bind {α β : Type} {x : GLM α} {f : α → GLM β} (hx : Returns x)
    (hf : ∀ a, Returns (f a)) : Returns (x >>= f) := by
  intro w hw
  obtain ⟨h1, h2⟩ := hx w hw
  rw [glm_bind_apply]
  cases hxw : x w with
  | ok a w1 =>
    rw [hxw] at h2
    exact hf a w1 h2
  | crash c w1 =>
    rw [hxw] at h1
    simp [Res.crash?] at h1

theorem returns_GL_ASSERT {α : Type} (site : Site) (func : World → α × World)
    (h : ∀ w : World, w.errors = [] → (func w).2.errors = []) :
    Returns (GL_ASSERT site func) := by
  intro w hw
  have h1 := gl_clear_errors_wellFormed site w hw
  have h2 : (func (gl_clear_errors site w).2).2.errors = [] := h _ (by rw [h1])
  have h3 := gl_clear_errors_wellFormed site (func (gl_clear_errors site w).2).2
    (by rw [h2]; exact wellFormed_nil)
  unfold GL_ASSERT
  simp only [h3, h2]
  exact ⟨rfl, wellFormed_nil⟩

theorem returns_lift {α : Type} (func : World → α × World)
    (h : ∀ w : World, (func w).2.errors = w.errors) : Returns (GLM.lift func) := by
  intro w hw
  refine ⟨rfl, ?_⟩
  show WellFormed (func w).2.errors
  rw [h]
  exact hw

theorem returns_eprint (msg arg : String) : Returns (eprint msg arg) :=
  fun _ hw => ⟨rfl, hw⟩

theorem returns_exec {d : Driver} (hd : d.Clean) (site : Site) (c : Call) :
    Returns (GL_ASSERT site (d.exec c)) := by
  apply returns_GL_ASSERT
  intro w hw
  simp [Driver.exec, Driver.call, hd w c, hw]

theorem compile_shader_returns {d : Driver} (hd : d.Clean) (type : GLenum)
    (source : String) : Returns (compile_shader d type source) := by
  unfold compile_shader
  refine returns_bind (returns_GL_ASSERT _ _ fun w hw => ?_) fun id => ?_
  · simp [glCreateShader, Driver.call, hd w _, hw]
  refine returns_bind (returns_exec hd _ _) fun _ => ?_
  refine returns_bind (returns_exec hd _ _) fun _ => ?_
  refine returns_bind (returns_GL_ASSERT _ _ fun w hw => ?_) fun result => ?_
  · simp [glGetShaderiv, Driver.call, hd w _, hw]
  split
  · exact returns_pure _
  · refine returns_bind (returns_lift _ fun w => ?_) fun length => ?_
    · simp [glGetShaderiv, Driver.call, hd w _]
    refine returns_bind ?_ fun _ => ?_
    · split
      · refine returns_bind (returns_lift _ fun w => ?_) fun message => ?_
        · simp [glGetShaderInfoLog, Driver.call, hd w _]
        exact returns_bind (returns_eprint _ _) fun _ => returns_eprint _ _
      · exact returns_pure _
    refine returns_bind (returns_GL_ASSERT _ _ fun w hw => ?_) fun _ => returns_pure _
    simp [glDeleteShader, Driver.call, hd w _, hw]

/-- C7. Whenever `compile_shader` returns, it has created one shader object `id`, set its
source, compiled it and read its compile status, in that order.  It returns no `Shader`
exactly when the status read is not `GL_TRUE`; then `glDeleteShader(id)` was called exactly
once, as the last call, and the allocated shader objects are those of before.  When the
status is `GL_TRUE` it returns `Shader {id}`, `id` is allocated on top of the earlier
objects and `glDeleteShader` was not called.  With a driver raising no OpenGL error and
a well-formed pending queue, `compile_shader` does return. -/
theorem compile_shader_contract (d : Driver) (type : GLenum) (source : String) (w : World) :
    ((compile_shader d type source w).crash? = none →
      ∃ id status length,
        (compile_shader d type source w).world.trace
          = w.trace ++ [Call.glCreateShader type id, Call.glShaderSource id source,
              Call.glCompileShader id, Call.glGetShaderiv id "GL_COMPILE_STATUS" status]
            ++ compile_shader_tail id status length ∧
        ((compile_shader d type source w).value? = some none ↔ status ≠ GL_TRUE) ∧
        (status ≠ GL_TRUE →
          (compile_shader d type source w).value? = some none ∧
          (issued w (compile_shader d type source w)).count (Call.glDeleteShader id) = 1 ∧
          (compile_shader d type source w).world.shaders = w.shaders) ∧
        (status = GL_TRUE →
          (compile_shader d type source w).value? = some (some { id := id }) ∧
          (issued w (compile_shader d type source w)).count (Call.glDeleteShader id) = 0 ∧
          (compile_shader d type source w).world.shaders = id :: w.shaders)) ∧
    (d.Clean → WellFormed w.errors → (compile_shader d type source w).crash? = none) := by
  refine ⟨fun hret => ?_, fun hd hw => (compile_shader_returns hd type source w hw).1⟩
  have hpost := compile_shader_post d type source w
  cases hr : compile_shader d type source w with
  | crash c w1 => rw [hr] at hret; simp [Res.crash?] at hret
  | ok o w1 =>
    obtain ⟨id, status, length, htr, _, hT, hF⟩ := post_elim hpost hr
    refine ⟨id, status, length, htr, ?_, ?_, ?_⟩
    · by_cases hs : status = GL_TRUE
      · simp [Res.value?, (hT hs).1, hs]
      · simp [Res.value?, (hF hs).1, hs]
    · intro hs
      refine ⟨by simp [Res.value?, (hF hs).1], ?_, (hF hs).2⟩
      simp only [issued, Res.world, htr]
      simp only [List.append_assoc, List.drop_left]
      simp only [compile_shader_tail, if_neg hs]
      split <;> simp [List.count_cons]
    · intro hs
      refine ⟨by simp [Res.value?, (hT hs).1], ?_, (hT hs).2⟩
      simp only [issued, Res.world, htr]
      simp only [List.append_assoc, List.drop_left]
      simp [compile_shader_tail, hs, List.count_cons]

/-- A run of `compile_shader` with compile status 0 on the sample driver returns, so the
contract applies to it. -/
theorem compile_shader_contract_witness :
    (compile_shader (sampleDriver 0 0 []) GL_VERTEX_SHADER "void main()" World.init).crash?
        = none ∧
    ∃ id status length,
      (compile_shader (sampleDriver 0 0 []) GL_VERTEX_SHADER "void main()" World.init).world.trace
        = World.init.trace ++ [Call.glCreateShader GL_VERTEX_SHADER id,
            Call.glShaderSource id "void main()", Call.glCompileShader id,
            Call.glGetShaderiv id "GL_COMPILE_STATUS" status]
          ++ compile_shader_tail id status length :=
  ⟨by rfl,
   by
    obtain ⟨id, status, length, h, _⟩ :=
      (compile_shader_contract (sampleDriver 0 0 []) GL_VERTEX_SHADER "void main()"
        World.init).1 (by rfl)
    exact ⟨id, status, length, h⟩⟩

/-! ## The render loop: returning -/

theorem returns_step {α : Type} (x : GLM α)
    (h : ∀ w : World, (x w).crash? = none ∧ (x w).world.errors = w.errors) : Returns x := by
  intro w hw
  refine ⟨(h w).1, ?_⟩
  rw [(h w).2]
  exact hw

theorem returns_selected_texture (textures : List Texture) (ht : textures ≠ []) (i : Nat) :
    Returns (selected_texture textures i) := by
  apply returns_step
  intro w
  have hlen : 0 < textures.length := List.length_pos.mpr ht
  have hlt : i % textures.length < textures.length := Nat.mod_lt _ hlen
  unfold selected_texture
  rw [List.getElem?_eq_getElem hlt]
  exact ⟨rfl, rfl⟩

/-! ## The render loop: a hidden pass -/

theorem render_windows_hidden (d : Driver) (shader : ImageShader) (textures : List Texture)
    (mesh : SquareMesh) (windows : List Window) (i : Nat) (should_close : Bool) (w : World) :
    (main_render_windows d shader textures mesh false windows i should_close w).crash? = none ∧
    ∀ x, (main_render_windows d shader textures mesh false windows i should_close w).world.visible x
      = if x ∈ windows ∧ w.closeFlag x = false then false else w.visible x := by
  induction windows generalizing i should_close w with
  | nil => exact ⟨rfl, fun x => by simp [main_render_windows, Res.world]⟩
  | cons window rest ih =>
    unfold main_render_windows
    rw [glm_bind_apply]
    cases hcl : w.closeFlag window with
    | true =>
      rw [main_render_window_closing d shader textures mesh false i window should_close w hcl]
      obtain ⟨h1, h2⟩ := ih (i + 1) true
        { w with trace := w.trace ++ [Call.glfwMakeContextCurrent window],
                 current := some window }
      refine ⟨h1, fun x => ?_⟩
      rw [h2 x]
      by_cases hx : x = window
      · subst hx; simp [hcl]
      · simp [hx]
    | false =>
      rw [main_render_window_hidden d shader textures mesh i window should_close w hcl]
      obtain ⟨h1, h2⟩ := ih (i + 1) should_close
        { w with trace := w.trace ++ [Call.glfwMakeContextCurrent window]
                    ++ [Call.glfwHideWindow window],
                 current := some window,
                 visible := fun x => if x = window then false else w.visible x }
      refine ⟨h1, fun x => ?_⟩
      rw [h2 x]
      by_cases hx : x = window
      · subst hx; simp [hcl]
      · simp [hx]

/-! ## Counting draw calls -/

theorem drawCalls_filter_observed (cs : List Call) (window : Window) :
    drawCalls (cs.filter observed) window = drawCalls cs window := by
  unfold drawCalls
  rw [List.countP_filter]
  congr 1
  funext c
  cases c <;> simp [isDrawFor, observed]

theorem drawCalls_append (a b : List Call) (window : Window) :
    drawCalls (a ++ b) window = drawCalls a window + drawCalls b window := by
  simp [drawCalls, List.countP_append]

theorem drawCalls_expected_window (textures : List Texture) (should_show closing : Bool)
    (i : Nat) (x window : Window) :
    drawCalls (expected_window_calls textures should_show closing i x) window
      = if x = window ∧ closing = false ∧ should_show = true
            ∧ (textures[i % textures.length]?).isSome = true then 1 else 0 := by
  unfold expected_window_calls drawCalls
  cases closing <;> cases should_show <;> cases textures[i % textures.length]? <;>
    simp [isDrawFor, List.countP_cons]

theorem drawCalls_expected_of_not_mem (textures : List Texture) (should_show : Bool)
    (closeFlag : Window → Bool) (windows : List Window) (i : Nat) (window : Window)
    (h : window ∉ windows ∨ should_show = false ∨ closeFlag window = true) :
    drawCalls (expected_calls textures should_show closeFlag windows i) window = 0 := by
  induction windows generalizing i with
  | nil => rfl
  | cons x rest ih =>
    unfold expected_calls
    rw [drawCalls_append, drawCalls_expected_window, ih]
    · rcases h with h | h | h
      · have : x ≠ window := fun e => h (by simp [e])
        simp [this]
      · simp [h]
      · by_cases hx : x = window
        · subst hx; simp [h]
        · simp [hx]
    · rcases h with h | h | h
      · left; exact fun hm => h (List.mem_cons_of_mem _ hm)
      · right; left; exact h
      · right; right; exact h

theorem drawCalls_expected_le (textures : List Texture) (should_show : Bool)
    (closeFlag : Window → Bool) (windows : List Window) (hnd : windows.Nodup) (i : Nat)
    (window : Window) :
    drawCalls (expected_calls textures should_show closeFlag windows i) window ≤ 1 := by
  induction windows generalizing i with
  | nil => simp [expected_calls, drawCalls]
  | cons x rest ih =>
    unfold expected_calls
    rw [drawCalls_append, drawCalls_expected_window]
    have hnd2 := List.nodup_cons.mp hnd
    by_cases hx : x = window
    · subst hx
      rw [drawCalls_expected_of_not_mem _ _ _ _ _ _ (Or.inl hnd2.1)]
      split <;> omega
    · have := ih hnd2.2 (i + 1)
      simp [hx]
      exact this

theorem selected_index_isSome (textures : List Texture) (ht : textures ≠ []) (i : Nat) :
    (textures[i % textures.length]?).isSome = true := by
  have hlen : 0 < textures.length := List.length_pos.mpr ht
  have hlt : i % textures.length < textures.length := Nat.mod_lt _ hlen
  rw [List.getElem?_eq_getElem hlt]
  rfl

theorem drawCalls_expected_eq_one (textures : List Texture) (ht : textures ≠ [])
    (closeFlag : Window → Bool) (windows : List Window) (hnd : windows.Nodup) (i : Nat)
    (window : Window) (hmem : window ∈ windows) (hcf : closeFlag window = false) :
    drawCalls (expected_calls textures true closeFlag windows i) window = 1 := by
  induction windows generalizing i with
  | nil => simp at hmem
  | cons x rest ih =>
    unfold expected_calls
    rw [drawCalls_append, drawCalls_expected_window]
    have hnd2 := List.nodup_cons.mp hnd
    by_cases hx : x = window
    · subst hx
      rw [drawCalls_expected_of_not_mem _ _ _ _ _ _ (Or.inl hnd2.1)]
      simp [hcf, selected_index_isSome textures ht]
    · have hm : window ∈ rest := by
        rcases List.mem_cons.mp hmem with h | h
        · exact absurd h.symm hx
        · exact h
      rw [ih hnd2.2 (i + 1) hm]
      simp [hx]

theorem hide_mem_expected (textures : List Texture) (closeFlag : Window → Bool)
    (windows : List Window) (i : Nat) (window : Window) (hmem : window ∈ windows)
    (hcf : closeFlag window = false) :
    Call.glfwHideWindow window ∈ expected_calls textures false closeFlag windows i := by
  induction windows generalizing i with
  | nil => simp at hmem
  | cons x rest ih =>
    unfold expected_calls
    rcases List.mem_cons.mp hmem with h | h
    · subst h
      simp [expected_window_calls, hcf]
    · exact List.mem_append_right _ (ih (i + 1) h)

/-! ## The render loop: completion and abort -/

theorem wellFormed_append {a b : List GLenum} (ha : WellFormed a) (hb : WellFormed b) :
    WellFormed (a ++ b) := by
  intro e he
  rcases List.mem_append.mp he with h | h
  · exact ha e h
  · exact hb e h

theorem returns_lift_wellFormed {α : Type} (func : World → α × World)
    (h : ∀ w : World, WellFormed w.errors → WellFormed (func w).2.errors) :
    Returns (GLM.lift func) :=
  fun w hw => ⟨rfl, h w hw⟩

theorem returns_exec_wrapped {d : Driver} (hd : d.CleanWrapped) (site : Site) (c : Call)
    (hc : unwrappedInRender c = false) : Returns (GL_ASSERT site (d.exec c)) := by
  apply returns_GL_ASSERT
  intro w hw
  simp [Driver.exec, Driver.call, hd.1 w c hc, hw]

theorem returns_bind_mesh_wrapped {d : Driver} (hd : d.CleanWrapped) (mesh : SquareMesh) :
    Returns (mesh.bind d) := by
  unfold SquareMesh.bind
  refine returns_bind (returns_GL_ASSERT _ _ fun w hw => ?_) fun _ => ?_
  · simp [glGenVertexArrays, Driver.call,
      hd.1 w (Call.glGenVertexArrays (d.glGenVertexArrays w)) rfl, hw]
  refine returns_bind (returns_exec_wrapped hd _ _ rfl) fun _ => ?_
  refine returns_bind (returns_exec_wrapped hd _ _ rfl) fun _ => ?_
  refine returns_bind (returns_exec_wrapped hd _ _ rfl) fun _ => ?_
  refine returns_bind (returns_exec_wrapped hd _ _ rfl) fun _ => ?_
  exact returns_exec_wrapped hd _ _ rfl

theorem returns_render_window_draw_wrapped {d : Driver} (hd : d.CleanWrapped)
    (shader : ImageShader) (textures : List Texture) (ht : textures ≠ [])
    (mesh : SquareMesh) (i : Nat) (window : Window) :
    Returns (main_render_window_draw d shader textures mesh i window) := by
  unfold main_render_window_draw
  refine returns_bind (returns_exec_wrapped hd _ _ rfl) fun _ => ?_
  refine returns_bind (returns_step _ fun w => ⟨rfl, rfl⟩) fun _ => ?_
  refine returns_bind (returns_exec_wrapped hd _ _ rfl) fun _ => ?_
  refine returns_bind (returns_exec_wrapped hd _ _ rfl) fun _ => ?_
  refine returns_bind (returns_exec_wrapped hd _ _ rfl) fun _ => ?_
  refine returns_bind (returns_exec_wrapped hd _ _ rfl) fun _ => ?_
  refine returns_bind (returns_exec_wrapped hd _ _ rfl) fun _ => ?_
  refine returns_bind (returns_exec_wrapped hd _ _ rfl) fun _ => ?_
  refine returns_bind (returns_exec_wrapped hd _ _ rfl) fun _ => ?_
  refine returns_bind (returns_exec_wrapped hd _ _ rfl) fun _ => ?_
  refine returns_bind (returns_bind_mesh_wrapped hd mesh) fun _ => ?_
  refine returns_bind (returns_exec_wrapped hd _ _ rfl) fun _ => ?_
  refine returns_bind (returns_selected_texture textures ht i) fun _ => ?_
  refine returns_bind (returns_lift_wellFormed _ fun w hw => ?_) fun _ => ?_
  · exact wellFormed_append hw (hd.2 w _)
  refine returns_bind (returns_exec_wrapped hd _ _ rfl) fun _ => ?_
  refine returns_bind (returns_GL_ASSERT _ _ fun w hw => ?_) fun _ => ?_
  · simp [glDrawElements, Driver.call, hd.1 w (Call.glDrawElements w.current 6) rfl, hw]
  exact returns_step _ fun w => ⟨rfl, rfl⟩

theorem returns_render_window_wrapped {d : Driver} (hd : d.CleanWrapped)
    (shader : ImageShader) (textures : List Texture) (ht : textures ≠ [])
    (mesh : SquareMesh) (should_show : Bool) (i : Nat) (window : Window)
    (should_close : Bool) :
    Returns (main_render_window d shader textures mesh should_show i window should_close) := by
  unfold main_render_window
  refine returns_bind (returns_step _ fun w => ⟨rfl, rfl⟩) fun _ => ?_
  refine returns_bind (returns_step _ fun w => ⟨rfl, rfl⟩) fun closing => ?_
  split
  · exact returns_pure _
  · split
    · refine returns_bind (returns_step _ fun w => ⟨rfl, rfl⟩) fun _ => ?_
      exact returns_bind
        (returns_render_window_draw_wrapped hd shader textures ht mesh i window)
        fun _ => returns_pure _
    · exact returns_bind (returns_step _ fun w => ⟨rfl, rfl⟩) fun _ => returns_pure _

theorem returns_render_windows_wrapped {d : Driver} (hd : d.CleanWrapped)
    (shader : ImageShader) (textures : List Texture) (ht : textures ≠ [])
    (mesh : SquareMesh) (should_show : Bool) (windows : List Window) (i : Nat)
    (should_close : Bool) :
    Returns (main_render_windows d shader textures mesh should_show windows i should_close) := by
  induction windows generalizing i should_close with
  | nil => exact returns_pure _
  | cons window rest ih =>
    unfold main_render_windows
    exact returns_bind
      (returns_render_window_wrapped hd shader textures ht mesh should_show i window
        should_close)
      fun b => ih (i + 1) b

theorem assertOnly_pure {α : Type} (a : α) : AssertOnly (pure a : GLM α) :=
  fun _ => Or.inl rfl

theorem assertOnly_bind {α β : Type} {x : GLM α} {f : α → GLM β} (hx : AssertOnly x)
    (hf : ∀ a, AssertOnly (f a)) : AssertOnly (x >>= f) := by
  intro w
  rw [glm_bind_apply]
  cases hxw : x w with
  | ok a w1 => exact hf a w1
  | crash c w1 =>
    rcases hx w with h | ⟨site, h⟩
    · rw [hxw] at h
      simp [Res.crash?] at h
    · rw [hxw] at h
      exact Or.inr ⟨site, h⟩

theorem assertOnly_GL_ASSERT {α : Type} (site : Site) (func : World → α × World) :
    AssertOnly (GL_ASSERT site func) := by
  intro w
  rcases GL_ASSERT_cases site func w with h | h <;> rw [h]
  · exact Or.inl rfl
  · exact Or.inr ⟨site, rfl⟩

theorem assertOnly_step {α : Type} (x : GLM α) (h : ∀ w : World, (x w).crash? = none) :
    AssertOnly x :=
  fun w => Or.inl (h w)

theorem assertOnly_bind_mesh (d : Driver) (mesh : SquareMesh) : AssertOnly (mesh.bind d) := by
  unfold SquareMesh.bind
  refine assertOnly_bind (assertOnly_GL_ASSERT _ _) fun _ => ?_
  refine assertOnly_bind (assertOnly_GL_ASSERT _ _) fun _ => ?_
  refine assertOnly_bind (assertOnly_GL_ASSERT _ _) fun _ => ?_
  refine assertOnly_bind (assertOnly_GL_ASSERT _ _) fun _ => ?_
  refine assertOnly_bind (assertOnly_GL_ASSERT _ _) fun _ => ?_
  exact assertOnly_GL_ASSERT _ _

theorem assertOnly_render_window_draw (d : Driver) (shader : ImageShader)
    (textures : List Texture) (ht : textures ≠ []) (mesh : SquareMesh) (i : Nat)
    (window : Window) :
    AssertOnly (main_render_window_draw d shader textures mesh i window) := by
  unfold main_render_window_draw
  refine assertOnly_bind (assertOnly_GL_ASSERT _ _) fun _ => ?_
  refine assertOnly_bind (assertOnly_step _ fun w => rfl) fun _ => ?_
  refine assertOnly_bind (assertOnly_GL_ASSERT _ _) fun _ => ?_
  refine assertOnly_bind (assertOnly_GL_ASSERT _ _) fun _ => ?_
  refine assertOnly_bind (assertOnly_GL_ASSERT _ _) fun _ => ?_
  refine assertOnly_bind (assertOnly_GL_ASSERT _ _) fun _ => ?_
  refine assertOnly_bind (assertOnly_GL_ASSERT _ _) fun _ => ?_
  refine assertOnly_bind (assertOnly_GL_ASSERT _ _) fun _ => ?_
  refine assertOnly_bind (assertOnly_GL_ASSERT _ _) fun _ => ?_
  refine assertOnly_bind (assertOnly_GL_ASSERT _ _) fun _ => ?_
  refine assertOnly_bind (assertOnly_bind_mesh d mesh) fun _ => ?_
  refine assertOnly_bind (assertOnly_GL_ASSERT _ _) fun _ => ?_
  refine assertOnly_bind (assertOnly_step _ fun w => ?_) fun _ => ?_
  · have hsome := selected_index_isSome textures ht i
    unfold selected_texture
    cases h : textures[i % textures.length]? with
    | none => rw [h] at hsome; simp at hsome
    | some t => rfl
  refine assertOnly_bind (assertOnly_step _ fun w => rfl) fun _ => ?_
  refine assertOnly_bind (assertOnly_GL_ASSERT _ _) fun _ => ?_
  refine assertOnly_bind (assertOnly_GL_ASSERT _ _) fun _ => ?_
  exact assertOnly_step _ fun w => rfl

theorem assertOnly_render_window (d : Driver) (shader : ImageShader)
    (textures : List Texture) (ht : textures ≠ []) (mesh : SquareMesh) (should_show : Bool)
    (i : Nat) (window : Window) (should_close : Bool) :
    AssertOnly
      (main_render_window d shader textures mesh should_show i window should_close) := by
  unfold main_render_window
  refine assertOnly_bind (assertOnly_step _ fun w => rfl) fun _ => ?_
  refine assertOnly_bind (assertOnly_step _ fun w => rfl) fun closing => ?_
  split
  · exact assertOnly_pure _
  · split
    · refine assertOnly_bind (assertOnly_step _ fun w => rfl) fun _ => ?_
      exact assertOnly_bind (assertOnly_render_window_draw d shader textures ht mesh i window)
        fun _ => assertOnly_pure _
    · exact assertOnly_bind (assertOnly_step _ fun w => rfl) fun _ => assertOnly_pure _

theorem assertOnly_render_windows (d : Driver) (shader : ImageShader)
    (textures : List Texture) (ht : textures ≠ []) (mesh : SquareMesh) (should_show : Bool)
    (windows : List Window) (i : Nat) (should_close : Bool) :
    AssertOnly
      (main_render_windows d shader textures mesh should_show windows i should_close) := by
  induction windows generalizing i should_close with
  | nil => exact assertOnly_pure _
  | cons window rest ih =>
    unfold main_render_windows
    exact assertOnly_bind
      (assertOnly_render_window d shader textures ht mesh should_show i window should_close)
      fun b => ih (i + 1) b

/-! ## The render loop: the two properties -/

theorem issued_eq {α : Type} (w : World) (r : Res α) (cs : List Call)
    (h : r.world.trace = w.trace ++ cs) : issued w r = cs := by
  unfold issued
  rw [h, List.drop_left]

/-- C2 (amended). In one render-loop iteration over distinct windows, for every window of
the list: at most one draw call is issued for it; none is issued when the snapshot says
hidden or the window is signaled to close; a hidden iteration always completes, and
then every window not signaled to close has had `glfwHideWindow` called and is not
shown; when the snapshot says shown, the window is not signaled to close, the texture
list is not empty and the iteration completes, exactly one draw call was issued for the
window; the iteration does complete when the texture list is not empty, no call wrapped
in `GL_ASSERT` raises an error (the unwrapped texture bind may) and the pending and
raised codes are error codes; and with a non-empty texture list the only way it does not
complete is the failed `assert` of a `GL_ASSERT`. -/
theorem render_iteration_draw_calls (d : Driver) (shader : ImageShader)
    (textures : List Texture) (mesh : SquareMesh) (windows : List Window)
    (hnd : windows.Nodup) (show_windows : Bool) (w : World) (window : Window)
    (hmem : window ∈ windows) :
    drawCalls (issued w
      (main_render_iteration d shader textures mesh windows show_windows w)) window ≤ 1 ∧
    ((show_windows = false ∨ w.closeFlag window = true) →
      drawCalls (issued w
        (main_render_iteration d shader textures mesh windows show_windows w)) window = 0) ∧
    (show_windows = false →
      (main_render_iteration d shader textures mesh windows show_windows w).crash? = none) ∧
    (show_windows = false → w.closeFlag window = false →
      Call.glfwHideWindow window ∈ issued w
        (main_render_iteration d shader textures mesh windows show_windows w) ∧
      (main_render_iteration d shader textures mesh windows show_windows w).world.visible window
        = false) ∧
    (show_windows = true → w.closeFlag window = false → textures ≠ [] →
      (main_render_iteration d shader textures mesh windows show_windows w).crash? = none →
      drawCalls (issued w
        (main_render_iteration d shader textures mesh windows show_windows w)) window = 1) ∧
    (show_windows = true → textures ≠ [] → d.CleanWrapped → WellFormed w.errors →
      (main_render_iteration d shader textures mesh windows show_windows w).crash? = none) ∧
    (textures ≠ [] →
      (main_render_iteration d shader textures mesh windows show_windows w).crash? = none ∨
      ∃ site,
        (main_render_iteration d shader textures mesh windows show_windows w).crash?
          = some (Crash.assertFailed site)) := by
  unfold main_render_iteration
  obtain ⟨_, cs, htr, hst, hok⟩ :=
    render_windows_calls d shader textures mesh show_windows windows 0 false w
  rw [issued_eq w _ cs htr]
  refine ⟨?_, ?_, ?_, ?_, ?_, ?_, ?_⟩
  · rw [← drawCalls_filter_observed]
    exact le_trans (starts_countP_le hst _)
      (drawCalls_expected_le textures show_windows w.closeFlag windows hnd 0 window)
  · intro h
    have h0 := drawCalls_expected_of_not_mem textures show_windows w.closeFlag windows 0 window
      (Or.inr h)
    have hle := starts_countP_le hst (isDrawFor window)
    rw [← drawCalls_filter_observed]
    unfold drawCalls at h0 ⊢
    omega
  · intro hs
    subst hs
    exact (render_windows_hidden d shader textures mesh windows 0 false w).1
  · intro hs hcf
    subst hs
    obtain ⟨h1, h2⟩ := render_windows_hidden d shader textures mesh windows 0 false w
    refine ⟨?_, ?_⟩
    · have hm := hide_mem_expected textures w.closeFlag windows 0 window hmem hcf
      rw [← hok h1] at hm
      exact (List.mem_filter.mp hm).1
    · rw [h2 window]
      simp [hmem, hcf]
  · intro hs hcf ht hret
    subst hs
    rw [← drawCalls_filter_observed, hok hret]
    exact drawCalls_expected_eq_one textures ht w.closeFlag windows hnd 0 window hmem hcf
  · intro hs ht hd hw
    exact (returns_render_windows_wrapped hd shader textures ht mesh show_windows windows 0
      false w hw).1
  · intro ht
    exact assertOnly_render_windows d shader textures ht mesh show_windows windows 0 false w

theorem bindRaisingDriver_cleanWrapped : bindRaisingDriver.CleanWrapped := by
  refine ⟨fun w c hc => ?_, fun w c => ?_⟩
  · show (if unwrappedInRender c = true then [0x0502] else []) = []
    simp [hc]
  · show WellFormed (if unwrappedInRender c = true then [0x0502] else [])
    split <;> decide

/-- An iteration over windows 1 and 2 with the snapshot saying shown, on a driver whose
unwrapped texture bind raises `GL_INVALID_OPERATION` and whose wrapped calls raise
nothing, completes and issues exactly one draw call for window 2. -/
theorem render_iteration_draw_calls_witness :
    (main_render_iteration bindRaisingDriver sampleShader [sampleTexture 7] sampleMesh
      [1, 2] true World.init).crash? = none ∧
    drawCalls (issued World.init
      (main_render_iteration bindRaisingDriver sampleShader
        [sampleTexture 7] sampleMesh [1, 2] true World.init)) 2 = 1 :=
  ⟨(render_iteration_draw_calls bindRaisingDriver sampleShader [sampleTexture 7] sampleMesh
      [1, 2] (by decide) true World.init 2 (by decide)).2.2.2.2.2.1 rfl (by decide)
      bindRaisingDriver_cleanWrapped (by decide),
   (render_iteration_draw_calls bindRaisingDriver sampleShader [sampleTexture 7] sampleMesh
      [1, 2] (by decide) true World.init 2 (by decide)).2.2.2.2.1 rfl rfl (by decide)
      ((render_iteration_draw_calls bindRaisingDriver sampleShader [sampleTexture 7]
        sampleMesh [1, 2] (by decide) true World.init 2 (by decide)).2.2.2.2.2.1 rfl
        (by decide) bindRaisingDriver_cleanWrapped (by decide))⟩

/-- C2, as stated, fails for a window signaled to close: with the snapshot saying hidden,
a shown window whose close flag is set is skipped before `glfwHideWindow`, so the
iteration completes with the window still shown and no hide call issued for it. -/
theorem render_iteration_closing_window_stays_shown :
    (main_render_iteration (sampleDriver 1 0 []) sampleShader [sampleTexture 7] sampleMesh
      [1] false closingWorld).crash? = none ∧
    closingWorld.visible 1 = true ∧
    (main_render_iteration (sampleDriver 1 0 []) sampleShader [sampleTexture 7] sampleMesh
      [1] false closingWorld).world.visible 1 = true ∧
    Call.glfwHideWindow 1 ∉ issued closingWorld
      (main_render_iteration (sampleDriver 1 0 []) sampleShader [sampleTexture 7] sampleMesh
        [1] false closingWorld) := by
  refine ⟨rfl, rfl, rfl, ?_⟩
  decide

/-- C3. For a non-empty texture list: the index `i % textures.size()` is within bounds for
every window index and `textures[i % textures.size()]` is that element; an iteration
with the snapshot saying shown does, for each window not signaled to close and in order,
show it, bind the texture `i % textures.size()` and draw: its observed calls are an
initial segment of that sequence, and the whole of it when the iteration completes; with
three windows and one texture every window binds that texture, and with three windows and
two textures windows 0 and 2 bind the first and window 1 binds the second. -/
theorem texture_selection (d : Driver) (shader : ImageShader) (textures : List Texture)
    (ht : textures ≠ []) (mesh : SquareMesh) (windows : List Window) (w : World) :
    (∀ i : Nat, ∃ h : i % textures.length < textures.length,
      ∀ w0 : World, selected_texture textures i w0
        = Res.ok (textures.get ⟨i % textures.length, h⟩) w0) ∧
    Starts
      ((issued w (main_render_iteration d shader textures mesh windows true w)).filter observed)
      (expected_calls textures true w.closeFlag windows 0) ∧
    ((main_render_iteration d shader textures mesh windows true w).crash? = none →
      (issued w (main_render_iteration d shader textures mesh windows true w)).filter observed
        = expected_calls textures true w.closeFlag windows 0) ∧
    (∀ (t0 : Texture) (a b c : Window),
      expected_calls [t0] true (fun _ => false) [a, b, c] 0
        = [Call.glfwShowWindow a, Call.glBindTexture "GL_TEXTURE_2D" t0.id,
           Call.glDrawElements (some a) 6,
           Call.glfwShowWindow b, Call.glBindTexture "GL_TEXTURE_2D" t0.id,
           Call.glDrawElements (some b) 6,
           Call.glfwShowWindow c, Call.glBindTexture "GL_TEXTURE_2D" t0.id,
           Call.glDrawElements (some c) 6]) ∧
    (∀ (t0 t1 : Texture) (a b c : Window),
      expected_calls [t0, t1] true (fun _ => false) [a, b, c] 0
        = [Call.glfwShowWindow a, Call.glBindTexture "GL_TEXTURE_2D" t0.id,
           Call.glDrawElements (some a) 6,
           Call.glfwShowWindow b, Call.glBindTexture "GL_TEXTURE_2D" t1.id,
           Call.glDrawElements (some b) 6,
           Call.glfwShowWindow c, Call.glBindTexture "GL_TEXTURE_2D" t0.id,
           Call.glDrawElements (some c) 6]) := by
  refine ⟨fun i => ?_, ?_, fun hret => ?_, fun t0 a b c => ?_, fun t0 t1 a b c => ?_⟩
  · have hlen : 0 < textures.length := List.length_pos.mpr ht
    have hlt : i % textures.length < textures.length := Nat.mod_lt _ hlen
    refine ⟨hlt, fun w0 => ?_⟩
    unfold selected_texture
    rw [List.getElem?_eq_getElem hlt]
    rfl
  · unfold main_render_iteration
    obtain ⟨_, cs, htr, hst, _⟩ :=
      render_windows_calls d shader textures mesh true windows 0 false w
    rw [issued_eq w _ cs htr]
    exact hst
  · unfold main_render_iteration at hret ⊢
    obtain ⟨_, cs, htr, _, hok⟩ :=
      render_windows_calls d shader textures mesh true windows 0 false w
    rw [issued_eq w _ cs htr]
    exact hok hret
  · simp [expected_calls, expected_window_calls]
  · simp [expected_calls, expected_window_calls]

/-- Three windows and two textures on the sample driver: the observed calls of the
iteration bind textures 7, 8, 7 in turn. -/
theorem texture_selection_witness :
    (issued World.init (main_render_iteration (sampleDriver 1 0 []) sampleShader
        [sampleTexture 7, sampleTexture 8] sampleMesh [1, 2, 3] true World.init)).filter
        observed
      = [Call.glfwShowWindow 1, Call.glBindTexture "GL_TEXTURE_2D" 7,
         Call.glDrawElements (some 1) 6,
         Call.glfwShowWindow 2, Call.glBindTexture "GL_TEXTURE_2D" 8,
         Call.glDrawElements (some 2) 6,
         Call.glfwShowWindow 3, Call.glBindTexture "GL_TEXTURE_2D" 7,
         Call.glDrawElements (some 3) 6] :=
  ((texture_selection (sampleDriver 1 0 []) sampleShader [sampleTexture 7, sampleTexture 8]
    (by decide) sampleMesh [1, 2, 3] World.init).2.2.1 (by decide!)).trans
    (by decide!)

/-! ## Witnesses for the wrapper and the listener -/

/-- With `GL_INVALID_OPERATION` pending beforehand, a call that raises an error is
aborted at the `assert` and a call that raises none returns. -/
theorem GL_ASSERT_contract_witness :
    (GL_ASSERT ⟨"glEnable(0)", 1⟩ raising_call pendingWorld).crash?
      = some (Crash.assertFailed ⟨"glEnable(0)", 1⟩) ∧
    (GL_ASSERT ⟨"glEnable(0)", 1⟩ (fun w => ((), w)) pendingWorld).value? = some () :=
  ⟨((GL_ASSERT_contract ⟨"glEnable(0)", 1⟩ raising_call pendingWorld (by decide)
      (by decide)).2.2.2.1).mpr (by decide),
   ((GL_ASSERT_contract ⟨"glEnable(0)", 1⟩ (fun w => ((), w)) pendingWorld (by decide)
      (by decide)).2.2.2.2.1).mpr (by decide)⟩

/-- Three registrations, two of them for F8: an F8 key-down runs callbacks 0 and 2, in
that order. -/
theorem global_keyboard_handler_dispatch_witness :
    global_keyboard_handler
        (attach_all [(VK_F8, logging_callback 0), (0x41, logging_callback 1),
          (VK_F8, logging_callback 2)] (g_callbacks_init (List (Nat × event_code))))
        0 WM_KEYDOWN VK_F8 []
      = [(0, WM_KEYDOWN), (2, WM_KEYDOWN)] :=
  ((global_keyboard_handler_dispatch
      [(VK_F8, logging_callback 0), (0x41, logging_callback 1), (VK_F8, logging_callback 2)]
      0 (by decide) WM_KEYDOWN VK_F8 []).1).trans (by decide)

theorem post_mono {α : Type} {x : GLM α} {w : World} {P Q : α → World → Prop}
    (h : Post x w P) (hPQ : ∀ a w1, P a w1 → Q a w1) : Post x w Q := by
  unfold Post at h ⊢
  split
  · rename_i a w1 hx
    rw [hx] at h
    exact hPQ a w1 h
  · trivial

/-! ## `create_image_shader` -/

theorem GL_ASSERT_assigned_le_one {α : Type} (site : Site) (func : World → α × World)
    (w : World) :
    Post (GL_ASSERT_assigned site func) w (fun lhs _ => lhs ≤ 1) := by
  unfold Post GL_ASSERT_assigned
  simp only
  split
  · rename_i a w1 h
    split at h
    · simp at h
    · simp only [Res.ok.injEq] at h
      rw [← h.1]
      split <;> omega
  · trivial

/-- Whatever location the uniform lookup answers, the `u_texture` field of a returned
`ImageShader` is 0 or 1: it is the flag of the first error drain. -/
theorem create_image_shader_u_texture (d : Driver) (w : World) :
    Post (create_image_shader d) w (fun o _ => ∀ shader, o = some shader → shader.u_texture ≤ 1) := by
  unfold create_image_shader
  refine post_bind_of (P := fun _ _ => True) ?_ ?_
  · unfold Post; split <;> trivial
  · intro program_opt w1 _
    cases program_opt with
    | none => exact post_pure (fun shader h => by simp at h)
    | some program =>
      refine post_bind_of (GL_ASSERT_assigned_le_one _ _ w1) ?_
      intro u w2 hu
      refine post_pure (fun shader h => ?_)
      simp only [Option.some.injEq] at h
      rw [← h]
      exact hu

/-- C10 (the code at the failing input). With a driver whose shaders compile, whose program
validates and whose uniform lookup answers location 7, `create_image_shader` succeeds, the
lookup recorded in the call history answered 7, and the `u_texture` field is 0. -/
theorem create_image_shader_drops_location :
    (create_image_shader (sampleDriver 1 7 []) World.init).value?
      = some (some { program := { id := 1 }, u_texture := 0 }) ∧
    Call.glGetUniformLocation 1 "u_texture" 7
      ∈ (create_image_shader (sampleDriver 1 7 []) World.init).world.trace := by
  constructor <;> decide!

/-! ## Loading the textures -/

/-- When the loading loop returns, every configured path has contributed a texture. -/
theorem main_load_textures_loop_length (d : Driver) (filepaths : List String)
    (textures : List Texture) (w : World) :
    Post (main_load_textures_loop d filepaths textures) w
      (fun result _ => result.length = textures.length + filepaths.length) := by
  induction filepaths generalizing textures w with
  | nil => exact post_pure (by simp)
  | cons filepath rest ih =>
    unfold main_load_textures_loop
    refine post_bind_of (P := fun _ _ => True) ?_ ?_
    · unfold Post; split <;> trivial
    · intro image_opt w1 _
      refine post_bind_of (P := fun _ _ => True) ?_ ?_
      · unfold Post; split <;> trivial
      · intro _ w2 _
        cases image_opt with
        | none =>
          unfold Post
          simp [optional_value]
        | some image =>
          refine post_bind_of (P := fun a _ => a = image) ?_ ?_
          · exact rfl
          · intro a w3 ha
            subst ha
            refine post_mono (ih (textures ++ [a]) w3) (fun r _ h => ?_)
            simp only [List.length_append, List.length_cons, List.length_nil] at h ⊢
            omega

/-- The texture-loading step returns only when every configured image loaded: a single
failed load ends the process at `image_opt.value()`, so `return 1` is reached for an
empty list of paths only. -/
theorem main_load_textures_returns_all (d : Driver) (filepaths : List String) (w : World) :
    Post (main_load_textures d filepaths) w (fun result _ =>
      (∀ textures, result = Except.ok textures → textures.length = filepaths.length) ∧
      (∀ code, result = Except.error code → filepaths = [])) := by
  unfold main_load_textures
  refine post_bind_of (main_load_textures_loop_length d filepaths [] w) ?_
  intro textures w1 hlen
  simp only [List.length_nil, Nat.zero_add] at hlen
  split
  · refine post_bind_of (P := fun _ _ => True) trivial ?_
    intro _ w2 _
    refine post_pure ⟨fun ts h => ?_, fun code h => by simp at h⟩
    simp only [Except.ok.injEq] at h
    rw [← h, hlen]
  · rename_i hz
    refine post_bind_of (P := fun _ _ => True) trivial ?_
    intro _ w2 _
    refine post_pure ⟨fun ts h => by simp at h, fun code _ => ?_⟩
    have : filepaths.length = 0 := by omega
    exact List.length_eq_zero.mp this

/-- C4 (the code at the failing input). With two configured images of which the first
loads and the second is missing, the texture-loading step neither goes on with the one
texture nor returns: after the warning the process ends with `std::bad_optional_access`.
With the shipped single path missing it ends the same way, before `return 1`. -/
theorem main_load_textures_one_missing :
    (main_load_textures (sampleDriver 1 0 ["./images/monitor_0.png"])
        ["./images/monitor_0.png", "./images/monitor_1.png"] World.init).crash?
      = some Crash.badOptionalAccess ∧
    LogLine.text "[warn] failed to load image: %s" "./images/monitor_1.png"
      ∈ (main_load_textures (sampleDriver 1 0 ["./images/monitor_0.png"])
          ["./images/monitor_0.png", "./images/monitor_1.png"] World.init).world.stderr ∧
    (main_load_textures (sampleDriver 1 0 []) main_filepaths World.init).crash?
      = some Crash.badOptionalAccess := by
  refine ⟨?_, ?_, ?_⟩ <;> decide!

/-! ## `load_texture_from_filepath` -/

/-- C6 (amended). `load_texture_from_filepath` answers the same empty optional for both
failure causes. When the file cannot be opened it writes one error line to `stderr` and
changes nothing else; when the file opens and the decoder yields no data it changes
nothing at all. -/
theorem load_texture_failures (d : Driver) (filepath : String) (w : World) :
    (d.fopen w filepath = none →
      load_texture_from_filepath d filepath w
        = Res.ok none { w with stderr := w.stderr
            ++ [LogLine.text "[error] failed to load image from: %s" filepath] }) ∧
    (∀ fp, d.fopen w filepath = some fp → d.stbi_load_from_file w fp = none →
      load_texture_from_filepath d filepath w = Res.ok none w) := by
  refine ⟨fun h => ?_, fun fp h1 h2 => ?_⟩
  · unfold load_texture_from_filepath
    simp only [h]
    rfl
  · unfold load_texture_from_filepath
    simp only [h1, h2]

/-- A missing file and a file that does not decode both yield an empty optional. -/
theorem load_texture_failures_witness :
    (load_texture_from_filepath (sampleDriver 1 0 []) "missing.png" World.init).value?
        = some none ∧
    (load_texture_from_filepath corruptFileDriver "corrupt.png" World.init).value?
        = some none :=
  ⟨by rw [(load_texture_failures (sampleDriver 1 0 []) "missing.png" World.init).1 (by decide)]
      rfl,
   by rw [(load_texture_failures corruptFileDriver "corrupt.png" World.init).2 3 (by decide)
        (by decide)]
      rfl⟩

/-- C6, as stated, fails: the value returned for a file that cannot be opened equals the
value returned for a file that opens and does not decode, so the result does not tell the
two causes apart. -/
theorem load_texture_failures_indistinguishable :
    (load_texture_from_filepath (sampleDriver 1 0 []) "missing.png" World.init).value?
      = (load_texture_from_filepath corruptFileDriver "corrupt.png" World.init).value? ∧
    (sampleDriver 1 0 []).fopen World.init "missing.png" = none ∧
    corruptFileDriver.fopen World.init "corrupt.png" = some 3 ∧
    corruptFileDriver.stbi_load_from_file World.init 3 = none := by
  refine ⟨?_, ?_, ?_, ?_⟩ <;> decide

/-! ## Window creation -/

theorem main_window_hints_eq (mode : VidMode) (w : World) :
    main_window_hints mode w = Res.ok ()
      { w with hints :=
          [(Hint.GLFW_FOCUSED, GLFW_FALSE), (Hint.GLFW_VISIBLE, GLFW_TRUE),
           (Hint.GLFW_RESIZABLE, GLFW_FALSE), (Hint.GLFW_DECORATED, GLFW_FALSE),
           (Hint.GLFW_OPENGL_PROFILE, GLFW_OPENGL_CORE_PROFILE),
           (Hint.GLFW_REFRESH_RATE, mode.refreshRate), (Hint.GLFW_BLUE_BITS, mode.blueBits),
           (Hint.GLFW_GREEN_BITS, mode.greenBits), (Hint.GLFW_RED_BITS, mode.redBits),
           (Hint.GLFW_CONTEXT_VERSION_MINOR, 4), (Hint.GLFW_CONTEXT_VERSION_MAJOR, 4)]
          ++ w.hints } := rfl

/-- The hints and the request of one pass of the creation loop: one call is recorded, a
window request made with the visible hint true, and the window answered, if any, is
shown. -/
theorem main_request_window {α : Type} (d : Driver) (mode : VidMode)
    (primary : Option Window) (k : Option Window → GLM α) (w : World) :
    ∃ (answer : Option Window) (w1 : World) (c : Call),
      (main_window_hints mode >>= fun _ =>
        glfwCreateWindow d mode.width mode.height primary >>= k) w = k answer w1 ∧
      w1.trace = w.trace ++ [c] ∧ requestedShown c ∧ isWindowRequest c = true ∧
      (∀ x, w1.visible x = if some x = answer then true else w.visible x) := by
  rw [glm_bind_apply, main_window_hints_eq]
  simp only [glm_bind_apply, glfwCreateWindow]
  cases hc : d.glfwCreateWindow _ with
  | none =>
    refine ⟨none, _, _, rfl, rfl, ?_, rfl, fun x => by simp⟩
    simp [requestedShown, hintValue, GLFW_TRUE, GLFW_FALSE]
  | some window =>
    refine ⟨some window, _, _, rfl, rfl, ?_, rfl, fun x => ?_⟩
    · simp [requestedShown, hintValue, GLFW_TRUE, GLFW_FALSE]
    · by_cases hx : x = window
      · simp [hx, hintValue, GLFW_TRUE, GLFW_FALSE]
      · simp [hx]

theorem main_request_window_elim {α : Type} (d : Driver) (mode : VidMode)
    (primary : Option Window) (k : Option Window → GLM α) (w : World) (P : Res α → Prop)
    (h : ∀ (answer : Option Window) (w1 : World) (c : Call), w1.trace = w.trace ++ [c] →
      requestedShown c →
      (∀ x, w1.visible x = if some x = answer then true else w.visible x) →
      P (k answer w1)) :
    P ((main_window_hints mode >>= fun _ =>
        glfwCreateWindow d mode.width mode.height primary >>= k) w) := by
  obtain ⟨answer, w1, c, heq, htr, hreq, _, hvis⟩ := main_request_window d mode primary k w
  rw [heq]
  exact h answer w1 c htr hreq hvis

/-- The end of one pass of the creation loop: two calls are recorded, neither a window
request, and the shown windows are unchanged. -/
theorem main_place_window {α : Type} (window : Window) (x y : Int) (k : GLM α) (w : World) :
    ∃ (w1 : World) (c1 c2 : Call),
      (glfwSetWindowPos window x y >>= fun _ => glfwMakeContextCurrent window >>= fun _ => k) w
        = k w1 ∧
      w1.trace = w.trace ++ [c1, c2] ∧ isWindowRequest c1 = false ∧
      isWindowRequest c2 = false ∧ w1.visible = w.visible :=
  ⟨_, Call.glfwSetWindowPos window x y, Call.glfwMakeContextCurrent window, rfl,
    by simp, rfl, rfl, rfl⟩

theorem requestedShown_of_not_request (c : Call) (h : isWindowRequest c = false) :
    requestedShown c := by
  cases c <;> simp_all [isWindowRequest, requestedShown]

theorem main_create_windows_loop_spec (d : Driver) (monitors : List Monitor) (i : Nat)
    (windows : List Window) (primary : Option Window) (w : World) :
    CreatedShown w windows monitors.length
      (main_create_windows_loop d monitors i windows primary w) := by
  induction monitors generalizing i windows primary w with
  | nil =>
    refine ⟨rfl, ⟨[], (List.append_nil _).symm, fun c h => by simp at h⟩, fun hv ws h => ?_⟩
    simp only [main_create_windows_loop, glm_pure_apply, Res.value?, Option.some.injEq,
      Except.ok.injEq] at h
    subst h
    exact ⟨by simp, hv⟩
  | cons monitor rest ih =>
    unfold main_create_windows_loop
    refine main_request_window_elim d monitor.mode primary _ w
      (CreatedShown w windows (rest.length + 1)) ?_
    intro answer w1 c htr hreq hvis
    have finish_spec : ∀ (window : Window) (p : Option Window) (w2 : World) (cs2 : List Call),
        answer = some window → w2.trace = w1.trace ++ cs2 → (∀ c ∈ cs2, requestedShown c) →
        w2.visible = w1.visible →
        CreatedShown w windows (rest.length + 1)
          ((glfwSetWindowPos window monitor.x monitor.y >>= fun _ =>
            glfwMakeContextCurrent window >>= fun _ =>
            main_create_windows_loop d rest (i + 1) (windows ++ [window]) p) w2) := by
      intro window p w2 cs2 hans htr2 hreq2 hvis2
      obtain ⟨w3, c1, c2, heq3, htr3, hc1, hc2, hvis3⟩ :=
        main_place_window window monitor.x monitor.y
          (main_create_windows_loop d rest (i + 1) (windows ++ [window]) p) w2
      rw [heq3]
      obtain ⟨h1, ⟨cs4, htr4, hreq4⟩, h3⟩ := ih (i + 1) (windows ++ [window]) p w3
      refine ⟨h1, ⟨[c] ++ cs2 ++ [c1, c2] ++ cs4, ?_, ?_⟩, fun hv ws hws => ?_⟩
      · rw [htr4, htr3, htr2, htr]
        simp
      · intro c0 hc0
        simp only [List.mem_append, List.mem_cons, List.mem_singleton, List.not_mem_nil,
          or_false] at hc0
        rcases hc0 with ((h | h) | h | h) | h
        · rw [h]; exact hreq
        · exact hreq2 c0 h
        · rw [h]; exact requestedShown_of_not_request _ hc1
        · rw [h]; exact requestedShown_of_not_request _ hc2
        · exact hreq4 c0 h
      · have hv3 : ∀ x ∈ windows ++ [window], w3.visible x = true := by
          intro x hx
          rw [hvis3, hvis2, hvis x]
          rcases List.mem_append.mp hx with h | h
          · simp [hv x h]
          · simp only [List.mem_singleton] at h
            simp [h, hans]
        obtain ⟨hlen, hall⟩ := h3 hv3 ws hws
        refine ⟨?_, hall⟩
        simp only [List.length_append, List.length_cons, List.length_nil] at hlen
        omega
    have exit_spec : ∀ (msg arg : String) (w2 : World) (cs2 : List Call),
        w2.trace = w1.trace ++ cs2 → (∀ c ∈ cs2, requestedShown c) →
        CreatedShown w windows (rest.length + 1)
          ((eprint msg arg >>= fun _ => (pure (Except.error 1) :
            GLM (Except Nat (List Window)))) w2) := by
      intro msg arg w2 cs2 htr2 hreq2
      refine ⟨rfl, ⟨[c] ++ cs2, ?_, ?_⟩, fun _ ws hws => ?_⟩
      · show w2.trace = _
        rw [htr2, htr]
        simp
      · intro c0 hc0
        simp only [List.mem_append, List.mem_singleton] at hc0
        rcases hc0 with h | h
        · rw [h]; exact hreq
        · exact hreq2 c0 h
      · simp [eprint, Res.value?] at hws
    cases answer with
    | none => exact exit_spec _ _ w1 [] (by simp) (fun c h => by simp at h)
    | some window =>
      simp only []
      by_cases hi : i = 0
      · rw [if_pos hi]
        simp only [glm_bind_apply, glfwMakeContextCurrent]
        split
        · exact exit_spec _ _ _ [Call.glfwMakeContextCurrent window] rfl
            (fun c h => by
              simp only [List.mem_singleton] at h
              rw [h]; trivial)
        · exact finish_spec window (some window) _ [Call.glfwMakeContextCurrent window] rfl rfl
            (fun c h => by
              simp only [List.mem_singleton] at h
              rw [h]; trivial) rfl
      · rw [if_neg hi]
        exact finish_spec window primary w1 [] rfl (by simp) (fun c h => by simp at h) rfl


/-- C8 (amended). Window creation never crashes; every window request it records is made
with the visible hint true and the decorated, resizable and focused hints false; when it
returns the windows there is one per monitor and every one of them is shown; and the
first render-loop iteration, run with the toggle false, leaves every such window that is
not signaled to close hidden. -/
theorem main_create_windows_shown (d : Driver) (monitors : List Monitor) (w : World) :
    (main_create_windows d monitors w).crash? = none ∧
    (∀ c ∈ issued w (main_create_windows d monitors w), requestedShown c) ∧
    (∀ windows, (main_create_windows d monitors w).value? = some (Except.ok windows) →
      windows.length = monitors.length ∧
      (∀ x ∈ windows, (main_create_windows d monitors w).world.visible x = true) ∧
      (∀ (d2 : Driver) (shader : ImageShader) (textures : List Texture) (mesh : SquareMesh),
        ∀ x ∈ windows, (main_create_windows d monitors w).world.closeFlag x = false →
          (main_render_iteration d2 shader textures mesh windows false
            (main_create_windows d monitors w).world).world.visible x = false)) := by
  obtain ⟨h1, ⟨cs, htr, hreq⟩, h3⟩ := main_create_windows_loop_spec d monitors 0 [] none w
  refine ⟨h1, ?_, fun windows hws => ?_⟩
  · unfold main_create_windows
    rw [issued_eq w _ cs htr]
    exact hreq
  · obtain ⟨hlen, hall⟩ := h3 (fun x hx => by simp at hx) windows hws
    refine ⟨by simpa using hlen, hall, fun d2 shader textures mesh x hx hcf => ?_⟩
    unfold main_render_iteration
    rw [(render_windows_hidden d2 shader textures mesh windows 0 false _).2 x]
    simp [hx, hcf]

/-- Two monitors on the sample driver: the windows 1 and 5 that are created are shown. -/
theorem main_create_windows_shown_witness :
    ∀ x ∈ [1, 5],
      (main_create_windows (sampleDriver 1 0 []) [sampleMonitor 0 0, sampleMonitor 1920 0]
        World.init).world.visible x = true :=
  ((main_create_windows_shown (sampleDriver 1 0 []) [sampleMonitor 0 0, sampleMonitor 1920 0]
    World.init).2.2 [1, 5] (by decide!)).2.1

/-- C8, as stated, fails: for two monitors the two windows are requested with the visible
hint `GLFW_TRUE`, not false, and after the creation loop both are shown, not hidden. -/
theorem main_create_windows_requests_visible :
    (main_create_windows (sampleDriver 1 0 []) [sampleMonitor 0 0, sampleMonitor 1920 0]
      World.init).value? = some (Except.ok [1, 5]) ∧
    hintValue (main_create_windows (sampleDriver 1 0 [])
      [sampleMonitor 0 0, sampleMonitor 1920 0] World.init).world.hints Hint.GLFW_VISIBLE
      = some GLFW_TRUE ∧
    (main_create_windows (sampleDriver 1 0 []) [sampleMonitor 0 0, sampleMonitor 1920 0]
      World.init).world.visible 1 = true ∧
    (main_create_windows (sampleDriver 1 0 []) [sampleMonitor 0 0, sampleMonitor 1920 0]
      World.init).world.visible 5 = true := by
  refine ⟨?_, ?_, ?_, ?_⟩ <;> decide!

end PrivacyScreen
